import Mathlib

/-!
Shallow embedding of the `windows-hypervisor` crate's discriminated-union
marshalling layer (files `src/lib.rs`, `src/partition.rs`, `src/processor.rs`,
`src/memory.rs`, `src/flags.rs`, `src/fields.rs`).

Modelling conventions:

* Machine integers (`u8`/`u16`/`u32`/`u64`/`u128`, and the `i32` wrappers of
  the `windows` crate) are modelled as `Nat`; width constraints appear as
  explicit `< 2 ^ w` well-formedness hypotheses where they matter.
* `bitflags` wrapper types convert with `from_bits_retain` / `.bits()`, which
  are bitwise identities, so they are modelled as the underlying `Nat`.
* The native C unions that this crate both writes and reads
  (`WHV_PARTITION_PROPERTY`) are modelled byte-exactly as a byte store
  `Bytes := Nat → Nat`, because the crate reads a union member different from
  the one it wrote (`ExceptionExitBitmap` is decoded through the overlapping
  `ExtendedVmExits.AsUINT64` member); only a byte-level model decides whether
  that aliasing is value-preserving.
* Rust panics (`todo!()`, `unreachable!()`, out-of-bounds indexing) are
  modelled by `Option`: a result of `none` means the Rust code panics.
* Fallible Rust code returning `crate::Result` is modelled with `Except Error`.
-/

namespace WHV

/-- A byte store: the raw memory of a native C union, byte index to byte
value.  Bytes the crate never wrote are read as whatever the store holds;
a freshly constructed union is modelled by `zeroBytes`. -/
def Bytes : Type := Nat → Nat

/-- The all-zero byte store (a freshly zero-initialised union). -/
def zeroBytes : Bytes := fun _ => 0

/-- Write `n` bytes of `val` little-endian at offset `off`. -/
def setLE (b : Bytes) (off val : Nat) : Nat → Bytes
  | 0 => b
  | n + 1 =>
    setLE (fun i => if i = off then val % 256 else b i) (off + 1) (val / 256) n

/-- Read `n` bytes little-endian at offset `off`. -/
def readLE (b : Bytes) (off : Nat) : Nat → Nat
  | 0 => 0
  | n + 1 => b off + 256 * readLE b (off + 1) n

/-! Partition property registry (`src/partition.rs`).

`PartitionPropertyCode` lists the ~30 wire discriminants; `PartitionProperty`
is the closed sum of decoded variants.  Fixed-size one-element arrays
(`[u32; 1]`, `[WHV_X64_CPUID_RESULT; 1]`, ...) are modelled by their single
element.  `bitflags` payloads are the underlying `Nat` bits. -/

inductive PartitionPropertyCode
  | ExtendedVmExits
  | ExceptionExitBitmap
  | SeparateSecurityDomain
  | NestedVirtualization
  | X64MsrExitBitmap
  | PrimaryNumaNode
  | CpuReserve
  | CpuCap
  | CpuWeight
  | CpuGroupId
  | ProcessorFrequencyCap
  | AllowDeviceAssignment
  | DisableSmt
  | ProcessorFeatures
  | ProcessorClFlushSize
  | CpuidExitList
  | CpuidResultList
  | LocalApicEmulationMode
  | ProcessorXsaveFeatures
  | ProcessorClockFrequency
  | InterruptClockFrequency
  | ApicRemoteRead
  | ProcessorFeaturesBanks
  | ReferenceTime
  | SyntheticProcessorFeaturesBanks
  | CpuidResultList2
  | ProcessorPerfmonFeatures
  | MsrActionList
  | UnimplementedMsrAction
  | ProcessorCount
  deriving DecidableEq, Repr

/-- The numeric wire value of each property code (the `repr(i32)`
discriminants of `PartitionPropertyCode` in `src/partition.rs`). -/
def PartitionPropertyCode.toRaw : PartitionPropertyCode → Nat
  | .ExtendedVmExits => 0x1
  | .ExceptionExitBitmap => 0x2
  | .SeparateSecurityDomain => 0x3
  | .NestedVirtualization => 0x4
  | .X64MsrExitBitmap => 0x5
  | .PrimaryNumaNode => 0x6
  | .CpuReserve => 0x7
  | .CpuCap => 0x8
  | .CpuWeight => 0x9
  | .CpuGroupId => 0xA
  | .ProcessorFrequencyCap => 0xB
  | .AllowDeviceAssignment => 0xC
  | .DisableSmt => 0xD
  | .ProcessorFeatures => 0x1001
  | .ProcessorClFlushSize => 0x1002
  | .CpuidExitList => 0x1003
  | .CpuidResultList => 0x1004
  | .LocalApicEmulationMode => 0x1005
  | .ProcessorXsaveFeatures => 0x1006
  | .ProcessorClockFrequency => 0x1007
  | .InterruptClockFrequency => 0x1008
  | .ApicRemoteRead => 0x1009
  | .ProcessorFeaturesBanks => 0x100A
  | .ReferenceTime => 0x100B
  | .SyntheticProcessorFeaturesBanks => 0x100C
  | .CpuidResultList2 => 0x100D
  | .ProcessorPerfmonFeatures => 0x100E
  | .MsrActionList => 0x100F
  | .UnimplementedMsrAction => 0x1010
  | .ProcessorCount => 0x1fff

inductive PartitionPropertyAvailability
  | BeforeSetup
  | AfterSetup
  deriving DecidableEq, Repr

/-- `WHV_SYNTHETIC_PROCESSOR_FEATURES_BANKS`: `BanksCount : u32` at offset 0,
`Reserved0 : u32` at 4, `Bank0 : u64` bits at 8. -/
structure SyntheticProcessorFeaturesBanks where
  banks_count : Nat
  bank_0 : Nat
  deriving DecidableEq, Repr

/-- `WHV_PROCESSOR_FEATURES_BANKS`: `BanksCount : u32` at 0, `Reserved0` at 4,
`Bank0 : u64` at 8, `Bank1 : u64` at 16. -/
structure ProcessorFeaturesBanks where
  banks_count : Nat
  bank_0 : Nat
  bank_1 : Nat
  deriving DecidableEq, Repr

/-- `WHV_X64_CPUID_RESULT`: `Function : u32` at 0, `Reserved : [u32; 3]` at
4..16, `Eax/Ebx/Ecx/Edx : u32` at 16/20/24/28. -/
structure X64CpuidResult where
  function : Nat
  eax : Nat
  ebx : Nat
  ecx : Nat
  edx : Nat
  deriving DecidableEq, Repr

/-- `WHV_CPUID_OUTPUT`: four consecutive `u32` fields. -/
structure CpuidOutput where
  eax : Nat
  ebx : Nat
  ecx : Nat
  edx : Nat
  deriving DecidableEq, Repr

/-- `WHV_X64_CPUID_RESULT2`: `Function/Index/VpIndex : u32` at 0/4/8,
`Flags : i32` bits at 12, `Output` at 16..32, `Mask` at 32..48. -/
structure X64CpuidResult2 where
  function : Nat
  index : Nat
  vp_index : Nat
  flags : Nat
  output : CpuidOutput
  mask : CpuidOutput
  deriving DecidableEq, Repr

/-- `WHV_MSR_ACTION_ENTRY`: `Index : u32` at 0, `ReadAction : u8` at 4,
`WriteAction : u8` at 5, `Reserved : u16` at 6. -/
structure MsrActionEntry where
  index : Nat
  read_action : Nat
  write_action : Nat
  deriving DecidableEq, Repr

inductive MsrAction
  | ArchitectureDefault
  | IgnoreWriteReadZero
  | Exit
  deriving DecidableEq, Repr

/-- The `repr(i32)` wire value of `MsrAction`. -/
def MsrAction.toRaw : MsrAction → Nat
  | .ArchitectureDefault => 0
  | .IgnoreWriteReadZero => 1
  | .Exit => 2

/-- `From<WHV_MSR_ACTION> for MsrAction`; `none` models the
`unreachable!()` panic on an unrecognised value. -/
def MsrAction.from_raw : Nat → Option MsrAction
  | 0 => some .ArchitectureDefault
  | 1 => some .IgnoreWriteReadZero
  | 2 => some .Exit
  | _ => none

inductive X64LocalApicEmulationMode
  | None
  | XApic
  | X2Apic
  deriving DecidableEq, Repr

def X64LocalApicEmulationMode.toRaw : X64LocalApicEmulationMode → Nat
  | .None => 0
  | .XApic => 1
  | .X2Apic => 2

/-- `From<WHV_X64_LOCAL_APIC_EMULATION_MODE>`; `none` models the
`unreachable!()` panic. -/
def X64LocalApicEmulationMode.from_raw : Nat → Option X64LocalApicEmulationMode
  | 0 => some .None
  | 1 => some .XApic
  | 2 => some .X2Apic
  | _ => none

inductive PartitionProperty
  | ExtendedVmExits (v : Nat)
  | ProcessorFeatures (v : Nat)
  | SyntheticProcessorFeaturesBanks (v : SyntheticProcessorFeaturesBanks)
  | ProcessorXsaveFeatures (v : Nat)
  | ProcessorClFlushSize (v : Nat)
  | ProcessorCount (v : Nat)
  | CpuidExitList (v : Nat)
  | CpuidResultList (v : X64CpuidResult)
  | CpuidResultList2 (v : X64CpuidResult2)
  | MsrActionList (v : MsrActionEntry)
  | UnimplementedMsrAction (v : MsrAction)
  | ExceptionExitBitmap (v : Nat)
  | LocalApicEmulationMode (v : X64LocalApicEmulationMode)
  | SeparateSecurityDomain (v : Bool)
  | NestedVirtualization (v : Bool)
  | X64MsrExitBitmap (v : Nat)
  | ProcessorClockFrequency (v : Nat)
  | InterruptClockFrequency (v : Nat)
  | ApicRemoteRead (v : Bool)
  | ProcessorFeaturesBanks (v : ProcessorFeaturesBanks)
  | ReferenceTime (v : Nat)
  | PrimaryNumaNode (v : Nat)
  | CpuReserve (v : Nat)
  | CpuCap (v : Nat)
  | CpuWeight (v : Nat)
  | CpuGroupId (v : Nat)
  | ProcessorFrequencyCap (v : Nat)
  | AllowDeviceAssignment (v : Bool)
  | ProcessorPerfmonFeatures (v : Nat)
  | DisableSmt (v : Bool)
  deriving DecidableEq, Repr

/-- `PartitionProperty::code` from `src/partition.rs`. -/
def PartitionProperty.code : PartitionProperty → PartitionPropertyCode
  | .ExtendedVmExits _ => .ExtendedVmExits
  | .ProcessorFeatures _ => .ProcessorFeatures
  | .SyntheticProcessorFeaturesBanks _ => .SyntheticProcessorFeaturesBanks
  | .ProcessorXsaveFeatures _ => .ProcessorXsaveFeatures
  | .ProcessorClFlushSize _ => .ProcessorClFlushSize
  | .ProcessorCount _ => .ProcessorCount
  | .CpuidExitList _ => .CpuidExitList
  | .CpuidResultList _ => .CpuidResultList
  | .CpuidResultList2 _ => .CpuidResultList2
  | .MsrActionList _ => .MsrActionList
  | .UnimplementedMsrAction _ => .UnimplementedMsrAction
  | .ExceptionExitBitmap _ => .ExceptionExitBitmap
  | .LocalApicEmulationMode _ => .LocalApicEmulationMode
  | .SeparateSecurityDomain _ => .SeparateSecurityDomain
  | .NestedVirtualization _ => .NestedVirtualization
  | .X64MsrExitBitmap _ => .X64MsrExitBitmap
  | .ProcessorClockFrequency _ => .ProcessorClockFrequency
  | .InterruptClockFrequency _ => .InterruptClockFrequency
  | .ApicRemoteRead _ => .ApicRemoteRead
  | .ProcessorFeaturesBanks _ => .ProcessorFeaturesBanks
  | .ReferenceTime _ => .ReferenceTime
  | .PrimaryNumaNode _ => .PrimaryNumaNode
  | .CpuReserve _ => .CpuReserve
  | .CpuCap _ => .CpuCap
  | .CpuWeight _ => .CpuWeight
  | .CpuGroupId _ => .CpuGroupId
  | .ProcessorFrequencyCap _ => .ProcessorFrequencyCap
  | .AllowDeviceAssignment _ => .AllowDeviceAssignment
  | .ProcessorPerfmonFeatures _ => .ProcessorPerfmonFeatures
  | .DisableSmt _ => .DisableSmt

/-- `PartitionProperty::availibility` from `src/partition.rs`.  In the source
every single arm is a `todo!()` placeholder, so the function panics for every
input; `none` models that panic. -/
def PartitionProperty.availibility : PartitionProperty → Option PartitionPropertyAvailability
  | .ExtendedVmExits _ => none
  | .ProcessorFeatures _ => none
  | .SyntheticProcessorFeaturesBanks _ => none
  | .ProcessorXsaveFeatures _ => none
  | .ProcessorClFlushSize _ => none
  | .ProcessorCount _ => none
  | .CpuidExitList _ => none
  | .CpuidResultList _ => none
  | .CpuidResultList2 _ => none
  | .MsrActionList _ => none
  | .UnimplementedMsrAction _ => none
  | .ExceptionExitBitmap _ => none
  | .LocalApicEmulationMode _ => none
  | .SeparateSecurityDomain _ => none
  | .NestedVirtualization _ => none
  | .X64MsrExitBitmap _ => none
  | .ProcessorClockFrequency _ => none
  | .InterruptClockFrequency _ => none
  | .ApicRemoteRead _ => none
  | .ProcessorFeaturesBanks _ => none
  | .ReferenceTime _ => none
  | .PrimaryNumaNode _ => none
  | .CpuReserve _ => none
  | .CpuCap _ => none
  | .CpuWeight _ => none
  | .CpuGroupId _ => none
  | .ProcessorFrequencyCap _ => none
  | .AllowDeviceAssignment _ => none
  | .ProcessorPerfmonFeatures _ => none
  | .DisableSmt _ => none

/-- Encode a `bool` as a native `BOOL` (`i32`, written as 4 bytes). -/
def boolBits (b : Bool) : Nat := if b then 1 else 0

/-- `From<PartitionProperty> for WHV_PARTITION_PROPERTY`: construct a fresh
union value with exactly the member for this variant written, starting from a
zeroed store.  Offsets and widths follow the native layouts noted on the
payload structures above; `Reserved` fields are written as 0 exactly where
the Rust conversion writes them. -/
def PartitionProperty.toUnion : PartitionProperty → Bytes
  | .ExtendedVmExits v => setLE zeroBytes 0 v 8
  | .ProcessorFeatures v => setLE zeroBytes 0 v 8
  | .SyntheticProcessorFeaturesBanks v =>
    setLE (setLE (setLE zeroBytes 0 v.banks_count 4) 4 0 4) 8 v.bank_0 8
  | .ProcessorXsaveFeatures v => setLE zeroBytes 0 v 8
  | .ProcessorClFlushSize v => setLE zeroBytes 0 v 1
  | .ProcessorCount v => setLE zeroBytes 0 v 4
  | .CpuidExitList v => setLE zeroBytes 0 v 4
  | .CpuidResultList v =>
    setLE (setLE (setLE (setLE (setLE (setLE zeroBytes 0 v.function 4) 4 0 12)
      16 v.eax 4) 20 v.ebx 4) 24 v.ecx 4) 28 v.edx 4
  | .CpuidResultList2 v =>
    setLE (setLE (setLE (setLE (setLE (setLE (setLE (setLE (setLE (setLE
      (setLE (setLE zeroBytes 0 v.function 4) 4 v.index 4) 8 v.vp_index 4)
      12 v.flags 4) 16 v.output.eax 4) 20 v.output.ebx 4) 24 v.output.ecx 4)
      28 v.output.edx 4) 32 v.mask.eax 4) 36 v.mask.ebx 4) 40 v.mask.ecx 4)
      44 v.mask.edx 4
  | .MsrActionList v =>
    setLE (setLE (setLE (setLE zeroBytes 0 v.index 4) 4 v.read_action 1)
      5 v.write_action 1) 6 0 2
  | .UnimplementedMsrAction v => setLE zeroBytes 0 v.toRaw 4
  | .ExceptionExitBitmap v => setLE zeroBytes 0 v 8
  | .LocalApicEmulationMode v => setLE zeroBytes 0 v.toRaw 4
  | .SeparateSecurityDomain v => setLE zeroBytes 0 (boolBits v) 4
  | .NestedVirtualization v => setLE zeroBytes 0 (boolBits v) 4
  | .X64MsrExitBitmap v => setLE zeroBytes 0 v 8
  | .ProcessorClockFrequency v => setLE zeroBytes 0 v 8
  | .InterruptClockFrequency v => setLE zeroBytes 0 v 8
  | .ApicRemoteRead v => setLE zeroBytes 0 (boolBits v) 4
  | .ProcessorFeaturesBanks v =>
    setLE (setLE (setLE (setLE zeroBytes 0 v.banks_count 4) 4 0 4)
      8 v.bank_0 8) 16 v.bank_1 8
  | .ReferenceTime v => setLE zeroBytes 0 v 8
  | .PrimaryNumaNode v => setLE zeroBytes 0 v 2
  | .CpuReserve v => setLE zeroBytes 0 v 4
  | .CpuCap v => setLE zeroBytes 0 v 4
  | .CpuWeight v => setLE zeroBytes 0 v 4
  | .CpuGroupId v => setLE zeroBytes 0 v 8
  | .ProcessorFrequencyCap v => setLE zeroBytes 0 v 4
  | .AllowDeviceAssignment v => setLE zeroBytes 0 (boolBits v) 4
  | .ProcessorPerfmonFeatures v => setLE zeroBytes 0 v 8
  | .DisableSmt v => setLE zeroBytes 0 (boolBits v) 4

/-- `PartitionProperty::from_union` from `src/partition.rs`: decode the raw
union bytes under the interpretation selected by `code`.  `none` models the
`unreachable!()` panics inside the nested `MsrAction` /
`X64LocalApicEmulationMode` decoders.  Note the `ExceptionExitBitmap` arm: the
source reads `raw_val.ExtendedVmExits.AsUINT64`, i.e. the overlapping
`ExtendedVmExits` member, which is also a `u64` at offset 0 of the union, so
it reads the same 8 bytes the `ExceptionExitBitmap` member occupies. -/
def PartitionProperty.from_union (code : PartitionPropertyCode) (raw : Bytes) :
    Option PartitionProperty :=
  match code with
  | .ExtendedVmExits => some (.ExtendedVmExits (readLE raw 0 8))
  | .ExceptionExitBitmap => some (.ExceptionExitBitmap (readLE raw 0 8))
  | .SeparateSecurityDomain => some (.SeparateSecurityDomain (readLE raw 0 4 != 0))
  | .NestedVirtualization => some (.NestedVirtualization (readLE raw 0 4 != 0))
  | .X64MsrExitBitmap => some (.X64MsrExitBitmap (readLE raw 0 8))
  | .PrimaryNumaNode => some (.PrimaryNumaNode (readLE raw 0 2))
  | .CpuReserve => some (.CpuReserve (readLE raw 0 4))
  | .CpuCap => some (.CpuCap (readLE raw 0 4))
  | .CpuWeight => some (.CpuWeight (readLE raw 0 4))
  | .CpuGroupId => some (.CpuGroupId (readLE raw 0 8))
  | .ProcessorFrequencyCap => some (.ProcessorFrequencyCap (readLE raw 0 4))
  | .AllowDeviceAssignment => some (.AllowDeviceAssignment (readLE raw 0 4 != 0))
  | .DisableSmt => some (.DisableSmt (readLE raw 0 4 != 0))
  | .ProcessorFeatures => some (.ProcessorFeatures (readLE raw 0 8))
  | .ProcessorClFlushSize => some (.ProcessorClFlushSize (readLE raw 0 1))
  | .CpuidExitList => some (.CpuidExitList (readLE raw 0 4))
  | .CpuidResultList => some (.CpuidResultList
      { function := readLE raw 0 4, eax := readLE raw 16 4, ebx := readLE raw 20 4
        ecx := readLE raw 24 4, edx := readLE raw 28 4 })
  | .LocalApicEmulationMode =>
    (X64LocalApicEmulationMode.from_raw (readLE raw 0 4)).map
      (fun m => .LocalApicEmulationMode m)
  | .ProcessorXsaveFeatures => some (.ProcessorXsaveFeatures (readLE raw 0 8))
  | .ProcessorClockFrequency => some (.ProcessorClockFrequency (readLE raw 0 8))
  | .InterruptClockFrequency => some (.InterruptClockFrequency (readLE raw 0 8))
  | .ApicRemoteRead => some (.ApicRemoteRead (readLE raw 0 4 != 0))
  | .ProcessorFeaturesBanks => some (.ProcessorFeaturesBanks
      { banks_count := readLE raw 0 4, bank_0 := readLE raw 8 8
        bank_1 := readLE raw 16 8 })
  | .ReferenceTime => some (.ReferenceTime (readLE raw 0 8))
  | .SyntheticProcessorFeaturesBanks => some (.SyntheticProcessorFeaturesBanks
      { banks_count := readLE raw 0 4, bank_0 := readLE raw 8 8 })
  | .CpuidResultList2 => some (.CpuidResultList2
      { function := readLE raw 0 4, index := readLE raw 4 4
        vp_index := readLE raw 8 4, flags := readLE raw 12 4
        output := { eax := readLE raw 16 4, ebx := readLE raw 20 4
                    ecx := readLE raw 24 4, edx := readLE raw 28 4 }
        mask := { eax := readLE raw 32 4, ebx := readLE raw 36 4
                  ecx := readLE raw 40 4, edx := readLE raw 44 4 } })
  | .ProcessorPerfmonFeatures => some (.ProcessorPerfmonFeatures (readLE raw 0 8))
  | .MsrActionList => some (.MsrActionList
      { index := readLE raw 0 4, read_action := readLE raw 4 1
        write_action := readLE raw 5 1 })
  | .UnimplementedMsrAction =>
    (MsrAction.from_raw (readLE raw 0 4)).map (fun a => .UnimplementedMsrAction a)
  | .ProcessorCount => some (.ProcessorCount (readLE raw 0 4))

/-- Well-formedness of a `PartitionProperty`: every numeric payload fits the
width of the native field it is stored in (`u8`/`u16`/`u32`/`u64`). -/
def PartitionProperty.WF : PartitionProperty → Prop
  | .ExtendedVmExits v => v < 256 ^ 8
  | .ProcessorFeatures v => v < 256 ^ 8
  | .SyntheticProcessorFeaturesBanks v => v.banks_count < 256 ^ 4 ∧ v.bank_0 < 256 ^ 8
  | .ProcessorXsaveFeatures v => v < 256 ^ 8
  | .ProcessorClFlushSize v => v < 256 ^ 1
  | .ProcessorCount v => v < 256 ^ 4
  | .CpuidExitList v => v < 256 ^ 4
  | .CpuidResultList v => v.function < 256 ^ 4 ∧ v.eax < 256 ^ 4 ∧ v.ebx < 256 ^ 4
      ∧ v.ecx < 256 ^ 4 ∧ v.edx < 256 ^ 4
  | .CpuidResultList2 v => v.function < 256 ^ 4 ∧ v.index < 256 ^ 4
      ∧ v.vp_index < 256 ^ 4 ∧ v.flags < 256 ^ 4
      ∧ v.output.eax < 256 ^ 4 ∧ v.output.ebx < 256 ^ 4 ∧ v.output.ecx < 256 ^ 4
      ∧ v.output.edx < 256 ^ 4 ∧ v.mask.eax < 256 ^ 4 ∧ v.mask.ebx < 256 ^ 4
      ∧ v.mask.ecx < 256 ^ 4 ∧ v.mask.edx < 256 ^ 4
  | .MsrActionList v => v.index < 256 ^ 4 ∧ v.read_action < 256 ^ 1
      ∧ v.write_action < 256 ^ 1
  | .UnimplementedMsrAction _ => True
  | .ExceptionExitBitmap v => v < 256 ^ 8
  | .LocalApicEmulationMode _ => True
  | .SeparateSecurityDomain _ => True
  | .NestedVirtualization _ => True
  | .X64MsrExitBitmap v => v < 256 ^ 8
  | .ProcessorClockFrequency v => v < 256 ^ 8
  | .InterruptClockFrequency v => v < 256 ^ 8
  | .ApicRemoteRead _ => True
  | .ProcessorFeaturesBanks v => v.banks_count < 256 ^ 4 ∧ v.bank_0 < 256 ^ 8
      ∧ v.bank_1 < 256 ^ 8
  | .ReferenceTime v => v < 256 ^ 8
  | .PrimaryNumaNode v => v < 256 ^ 2
  | .CpuReserve v => v < 256 ^ 4
  | .CpuCap v => v < 256 ^ 4
  | .CpuWeight v => v < 256 ^ 4
  | .CpuGroupId v => v < 256 ^ 8
  | .ProcessorFrequencyCap v => v < 256 ^ 4
  | .AllowDeviceAssignment _ => True
  | .ProcessorPerfmonFeatures v => v < 256 ^ 8
  | .DisableSmt _ => True

/-! Errors (`src/lib.rs`), memory regions (`src/memory.rs`) and the partition
lifecycle operations (`src/partition.rs`).  Native platform calls are external
collaborators: their outcomes are parameters of the model, and the calls a
lifecycle operation issues are recorded in a `List NativeCall` trace. -/

inductive RegionBacking
  | Volatile
  | File
  deriving DecidableEq, Repr

/-- `MemoryRegion` from `src/memory.rs` (host address, guest-physical
address, `MapGpaRangeFlags` bits, size, backing kind). -/
structure MemoryRegion where
  address : Nat
  guest_address : Nat
  flags : Nat
  size : Nat
  backing : RegionBacking
  deriving DecidableEq, Repr

/-- `Error` from `src/lib.rs`. -/
inductive Error
  | Windows (code : Nat)
  | TryFromIntError
  | IncompatiblePropertyAvailibility (prop : PartitionProperty)
  | InvalidVpIndex (index count : Nat)
  deriving DecidableEq, Repr

/-- One native platform call issued by a lifecycle operation. -/
inductive NativeCall
  | SetPartitionProperty (code : PartitionPropertyCode)
  | GetPartitionProperty (code : PartitionPropertyCode)
  | MapGpaRange (guest_address size : Nat)
  | CreateVirtualProcessor (index : Nat)
  deriving DecidableEq, Repr

/-- A setup partition: its accepted memory regions (`Partition` in
`src/partition.rs`; the shared native handle is not itself data). -/
structure Partition where
  memory_regions : List MemoryRegion
  deriving DecidableEq, Repr

/-- `Partition::set_property` from `src/partition.rs`: dispatch on
`prop.availibility()`.  A `BeforeSetup` property is rejected with the
dedicated error before any native call; an `AfterSetup` property reaches
`WHvSetPartitionProperty` (modelled as succeeding).  Since
`PartitionProperty::availibility` is a `todo!()` placeholder for every
variant, the dispatch itself panics (`none`) on every input. -/
def Partition.set_property (prop : PartitionProperty) :
    Option (List NativeCall × Except Error Unit) :=
  match prop.availibility with
  | none => none
  | some .BeforeSetup => some ([], .error (.IncompatiblePropertyAvailibility prop))
  | some .AfterSetup => some ([.SetPartitionProperty prop.code], .ok ())

/-- `Partition::map_memory_region` from `src/partition.rs`, parameterised by
the outcome of the native `WHvMapGpaRange` call: on native failure the error
is surfaced and the partition is returned unchanged (the descriptor is not
pushed onto `memory_regions`, so its backing allocation is still released by
the rejected descriptor's own drop); on success the descriptor is appended. -/
def Partition.map_memory_region (native : Except Nat Unit) (part : Partition)
    (memory_region : MemoryRegion) : Except Error Unit × Partition :=
  match native with
  | .error e => (.error (.Windows e), part)
  | .ok _ => (.ok (), ⟨part.memory_regions ++ [memory_region]⟩)

/-- `Partition::create_virtual_processor` from `src/partition.rs`,
parameterised by the raw payload `countRaw` the committed `ProcessorCount`
property reads back through `query_property`.  The read-back value is decoded
with `PartitionProperty::from_union`, the index guard `index >= count`
rejects with `Error::InvalidVpIndex(index, count)` before the native
`WHvCreateVirtualProcessor` call, and otherwise the vCPU is created.  The
returned trace lists the native calls issued, in order; the `Nat` result is
the created vCPU's index. -/
def Partition.create_virtual_processor (countRaw : Bytes) (index : Nat) :
    Option (List NativeCall × Except Error Nat) :=
  match PartitionProperty.from_union .ProcessorCount countRaw with
  | none => none
  | some prop =>
    match (match prop with
           | .ProcessorCount count =>
             if count ≤ index then Except.error (Error.InvalidVpIndex index count)
             else Except.ok ()
           | _ => Except.ok ()) with
    | .error e => some ([.GetPartitionProperty .ProcessorCount], .error e)
    | .ok _ => some ([.GetPartitionProperty .ProcessorCount,
                      .CreateVirtualProcessor index], .ok index)

/-! The register access layer (`src/processor.rs`): the closed `Register`
set, its classification `Register::ty`, and typed values. -/

inductive Register
  | Rax
  | Rcx
  | Rdx
  | Rbx
  | Rsp
  | Rbp
  | Rsi
  | Rdi
  | R8
  | R9
  | R10
  | R11
  | R12
  | R13
  | R14
  | R15
  | Rip
  | Rflags
  | Es
  | Cs
  | Ss
  | Ds
  | Fs
  | Gs
  | Ldtr
  | Tr
  | Idtr
  | Gdtr
  | Cr0
  | Cr2
  | Cr3
  | Cr4
  | Cr8
  | Dr0
  | Dr1
  | Dr2
  | Dr3
  | Dr6
  | Dr7
  | XCr0
  | VirtualCr0
  | VirtualCr3
  | VirtualCr4
  | VirtualCr8
  | Xmm0
  | Xmm1
  | Xmm2
  | Xmm3
  | Xmm4
  | Xmm5
  | Xmm6
  | Xmm7
  | Xmm8
  | Xmm9
  | Xmm10
  | Xmm11
  | Xmm12
  | Xmm13
  | Xmm14
  | Xmm15
  | FpMmx0
  | FpMmx1
  | FpMmx2
  | FpMmx3
  | FpMmx4
  | FpMmx5
  | FpMmx6
  | FpMmx7
  | FpControlStatus
  | XmmControlStatus
  | Tsc
  | Efer
  | KernelGsBase
  | ApicBase
  | Pat
  | SysenterCs
  | SysenterEip
  | SysenterEsp
  | Star
  | Lstar
  | Cstar
  | Sfmask
  | InitialApicId
  | MsrMtrrCap
  | MsrMtrrDefType
  | MsrMtrrPhysBase0
  | MsrMtrrPhysBase1
  | MsrMtrrPhysBase2
  | MsrMtrrPhysBase3
  | MsrMtrrPhysBase4
  | MsrMtrrPhysBase5
  | MsrMtrrPhysBase6
  | MsrMtrrPhysBase7
  | MsrMtrrPhysBase8
  | MsrMtrrPhysBase9
  | MsrMtrrPhysBaseA
  | MsrMtrrPhysBaseB
  | MsrMtrrPhysBaseC
  | MsrMtrrPhysBaseD
  | MsrMtrrPhysBaseE
  | MsrMtrrPhysBaseF
  | MsrMtrrPhysMask0
  | MsrMtrrPhysMask1
  | MsrMtrrPhysMask2
  | MsrMtrrPhysMask3
  | MsrMtrrPhysMask4
  | MsrMtrrPhysMask5
  | MsrMtrrPhysMask6
  | MsrMtrrPhysMask7
  | MsrMtrrPhysMask8
  | MsrMtrrPhysMask9
  | MsrMtrrPhysMaskA
  | MsrMtrrPhysMaskB
  | MsrMtrrPhysMaskC
  | MsrMtrrPhysMaskD
  | MsrMtrrPhysMaskE
  | MsrMtrrPhysMaskF
  | MsrMtrrFix64k00000
  | MsrMtrrFix16k80000
  | MsrMtrrFix16kA0000
  | MsrMtrrFix4kC0000
  | MsrMtrrFix4kC8000
  | MsrMtrrFix4kD0000
  | MsrMtrrFix4kD8000
  | MsrMtrrFix4kE0000
  | MsrMtrrFix4kE8000
  | MsrMtrrFix4kF0000
  | MsrMtrrFix4kF8000
  | TscAux
  | Bndcfgs
  | MCount
  | ACount
  | SpecCtrl
  | PredCmd
  | TscVirtualOffset
  | TsxCtrl
  | Xss
  | UCet
  | SCet
  | Ssp
  | Pl0Ssp
  | Pl1Ssp
  | Pl2Ssp
  | Pl3Ssp
  | InterruptSspTableAddr
  | TscDeadline
  | TscAdjust
  | UmwaitControl
  | Xfd
  | XfdErr
  | ApicId
  | ApicVersion
  | ApicTpr
  | ApicPpr
  | ApicEoi
  | ApicLdr
  | ApicSpurious
  | ApicIsr0
  | ApicIsr1
  | ApicIsr2
  | ApicIsr3
  | ApicIsr4
  | ApicIsr5
  | ApicIsr6
  | ApicIsr7
  | ApicTmr0
  | ApicTmr1
  | ApicTmr2
  | ApicTmr3
  | ApicTmr4
  | ApicTmr5
  | ApicTmr6
  | ApicTmr7
  | ApicIrr0
  | ApicIrr1
  | ApicIrr2
  | ApicIrr3
  | ApicIrr4
  | ApicIrr5
  | ApicIrr6
  | ApicIrr7
  | ApicEse
  | ApicIcr
  | ApicLvtTimer
  | ApicLvtThermal
  | ApicLvtPerfmon
  | ApicLvtLint0
  | ApicLvtLint1
  | ApicLvtError
  | ApicInitCount
  | ApicCurrentCount
  | ApicDivide
  | ApicSelfIpi
  | Sint0
  | Sint1
  | Sint2
  | Sint3
  | Sint4
  | Sint5
  | Sint6
  | Sint7
  | Sint8
  | Sint9
  | Sint10
  | Sint11
  | Sint12
  | Sint13
  | Sint14
  | Sint15
  | Scontrol
  | Sversion
  | Siefp
  | Simp
  | Eom
  | VpRuntime
  | Hypercall
  | GuestOsId
  | VpAssistPage
  | ReferenceTsc
  | ReferenceTscSequence
  | PendingInterruption
  | InterruptState
  | PendingEvent
  | DeliverabilityNotifications
  | InternalActivityState
  | PendingDebugException
  deriving DecidableEq, Repr

inductive RegisterType
  | Reg128
  | Reg64
  | Reg32
  | Reg16
  | Reg8
  | Fp
  | FpControlStatus
  | XmmControlStatus
  | Segment
  | Table
  | InterruptState
  | PendingInterruption
  | DeliverabilityNotifications
  | ExceptionEvent
  | ExtIntEvent
  deriving DecidableEq, Repr

/-- `Register::ty` from `src/processor.rs`, arm for arm.  The final arm of
the source — covering `Sint0` through `PendingDebugException` — is a
`todo!()`, i.e. a panic, modelled by `none`. -/
def Register.ty : Register → Option RegisterType
  | .Rax | .Rcx | .Rdx | .Rbx | .Rsp | .Rbp | .Rsi | .Rdi
  | .R8 | .R9 | .R10 | .R11 | .R12 | .R13 | .R14 | .R15
  | .Rip | .Rflags => some .Reg64
  | .Es | .Cs | .Ss | .Ds | .Fs | .Gs | .Ldtr | .Tr => some .Segment
  | .Idtr | .Gdtr => some .Table
  | .Cr0 | .Cr2 | .Cr3 | .Cr4 | .Cr8 => some .Reg64
  | .Dr0 | .Dr1 | .Dr2 | .Dr3 | .Dr6 | .Dr7 => some .Reg64
  | .XCr0 | .VirtualCr0 | .VirtualCr3 | .VirtualCr4 | .VirtualCr8 => some .Reg64
  | .Xmm0 | .Xmm1 | .Xmm2 | .Xmm3 | .Xmm4 | .Xmm5 | .Xmm6 | .Xmm7
  | .Xmm8 | .Xmm9 | .Xmm10 | .Xmm11 | .Xmm12 | .Xmm13 | .Xmm14
  | .Xmm15 => some .Reg128
  | .FpMmx0 | .FpMmx1 | .FpMmx2 | .FpMmx3 | .FpMmx4 | .FpMmx5 | .FpMmx6
  | .FpMmx7 => some .Fp
  | .FpControlStatus => some .FpControlStatus
  | .XmmControlStatus => some .XmmControlStatus
  | .Tsc | .Efer | .KernelGsBase | .ApicBase | .Pat | .SysenterCs
  | .SysenterEip | .SysenterEsp | .Star | .Lstar | .Cstar | .Sfmask
  | .InitialApicId | .MsrMtrrCap | .MsrMtrrDefType
  | .MsrMtrrPhysBase0 | .MsrMtrrPhysBase1 | .MsrMtrrPhysBase2
  | .MsrMtrrPhysBase3 | .MsrMtrrPhysBase4 | .MsrMtrrPhysBase5
  | .MsrMtrrPhysBase6 | .MsrMtrrPhysBase7 | .MsrMtrrPhysBase8
  | .MsrMtrrPhysBase9 | .MsrMtrrPhysBaseA | .MsrMtrrPhysBaseB
  | .MsrMtrrPhysBaseC | .MsrMtrrPhysBaseD | .MsrMtrrPhysBaseE
  | .MsrMtrrPhysBaseF | .MsrMtrrPhysMask0 | .MsrMtrrPhysMask1
  | .MsrMtrrPhysMask2 | .MsrMtrrPhysMask3 | .MsrMtrrPhysMask4
  | .MsrMtrrPhysMask5 | .MsrMtrrPhysMask6 | .MsrMtrrPhysMask7
  | .MsrMtrrPhysMask8 | .MsrMtrrPhysMask9 | .MsrMtrrPhysMaskA
  | .MsrMtrrPhysMaskB | .MsrMtrrPhysMaskC | .MsrMtrrPhysMaskD
  | .MsrMtrrPhysMaskE | .MsrMtrrPhysMaskF | .MsrMtrrFix64k00000
  | .MsrMtrrFix16k80000 | .MsrMtrrFix16kA0000 | .MsrMtrrFix4kC0000
  | .MsrMtrrFix4kC8000 | .MsrMtrrFix4kD0000 | .MsrMtrrFix4kD8000
  | .MsrMtrrFix4kE0000 | .MsrMtrrFix4kE8000 | .MsrMtrrFix4kF0000
  | .MsrMtrrFix4kF8000 | .TscAux | .Bndcfgs | .MCount | .ACount
  | .SpecCtrl | .PredCmd | .TscVirtualOffset | .TsxCtrl | .Xss
  | .UCet | .SCet | .Ssp | .Pl0Ssp | .Pl1Ssp | .Pl2Ssp | .Pl3Ssp
  | .InterruptSspTableAddr | .TscDeadline | .TscAdjust | .UmwaitControl
  | .Xfd | .XfdErr => some .Reg64
  | .ApicId | .ApicVersion | .ApicTpr | .ApicPpr | .ApicEoi | .ApicLdr
  | .ApicSpurious | .ApicIsr0 | .ApicIsr1 | .ApicIsr2 | .ApicIsr3
  | .ApicIsr4 | .ApicIsr5 | .ApicIsr6 | .ApicIsr7 | .ApicTmr0
  | .ApicTmr1 | .ApicTmr2 | .ApicTmr3 | .ApicTmr4 | .ApicTmr5
  | .ApicTmr6 | .ApicTmr7 | .ApicIrr0 | .ApicIrr1 | .ApicIrr2
  | .ApicIrr3 | .ApicIrr4 | .ApicIrr5 | .ApicIrr6 | .ApicIrr7
  | .ApicEse | .ApicIcr | .ApicLvtTimer | .ApicLvtThermal
  | .ApicLvtPerfmon | .ApicLvtLint0 | .ApicLvtLint1 | .ApicLvtError
  | .ApicInitCount | .ApicCurrentCount | .ApicDivide
  | .ApicSelfIpi => some .Reg64
  | .Sint0 | .Sint1 | .Sint2 | .Sint3 | .Sint4 | .Sint5 | .Sint6
  | .Sint7 | .Sint8 | .Sint9 | .Sint10 | .Sint11 | .Sint12 | .Sint13
  | .Sint14 | .Sint15 | .Scontrol | .Sversion | .Siefp | .Simp | .Eom
  | .VpRuntime | .Hypercall | .GuestOsId | .VpAssistPage | .ReferenceTsc
  | .ReferenceTscSequence | .PendingInterruption | .InterruptState
  | .PendingEvent | .DeliverabilityNotifications | .InternalActivityState
  | .PendingDebugException => none

/-! The vCPU run-loop exit dispatch (`src/processor.rs`): the closed
`RunExitReason` discriminant set, the per-reason extension payloads, and
`RunExitContextExt::from_union`.  The native exit-context union
`WHV_RUN_VP_EXIT_CONTEXT_0` is modelled as a product of its members: the
embedded code only ever reads the single member selected by the exit reason,
and never reads back a member it wrote, so no cross-member aliasing is
observable and the product model is extensionally faithful here (contrast
`WHV_PARTITION_PROPERTY`, which needs the byte model).  Raw structs carry the
fields the source reads; never-touched `Reserved` padding is omitted. -/

inductive RunExitReason
  | None
  | MemoryAccess
  | X64IoPortAccess
  | UnrecoverableException
  | InvalidVpRegisterValue
  | UnsupportedFeature
  | X64InterruptWindow
  | X64Halt
  | X64ApicEoi
  | SynicSintDeliverable
  | X64MsrAccess
  | X64Cpuid
  | Exception
  | X64Rdtsc
  | X64ApicSmiTrap
  | Hypercall
  | X64ApicInitSipiTrap
  | X64ApicWriteTrap
  | Canceled
  deriving DecidableEq, Repr, Fintype

/-- The numeric discriminants assigned to `RunExitReason` in
`src/processor.rs`. -/
def RunExitReason.toRaw : RunExitReason → Nat
  | .None => 0x0
  | .MemoryAccess => 0x1
  | .X64IoPortAccess => 0x2
  | .UnrecoverableException => 0x4
  | .InvalidVpRegisterValue => 0x5
  | .UnsupportedFeature => 0x6
  | .X64InterruptWindow => 0x7
  | .X64Halt => 0x8
  | .X64ApicEoi => 0x9
  | .SynicSintDeliverable => 0xA
  | .X64MsrAccess => 0x1000
  | .X64Cpuid => 0x1001
  | .Exception => 0x1002
  | .X64Rdtsc => 0x1003
  | .X64ApicSmiTrap => 0x1004
  | .Hypercall => 0x1005
  | .X64ApicInitSipiTrap => 0x1006
  | .X64ApicWriteTrap => 0x1007
  | .Canceled => 0x2001

/-- `From<WHV_RUN_VP_EXIT_REASON> for RunExitReason` in `src/processor.rs`:
a match over the 19 numeric codes whose default arm is `unreachable!()`, a
panic — modelled by `none`.  An unrecognised discriminant is therefore a
fatal condition, distinct from the recoverable `Error` results, and is never
coerced to any default variant. -/
def RunExitReason.from_raw (n : Nat) : Option RunExitReason :=
  if n = 0x0 then some .None
  else if n = 0x1 then some .MemoryAccess
  else if n = 0x2 then some .X64IoPortAccess
  else if n = 0x4 then some .UnrecoverableException
  else if n = 0x5 then some .InvalidVpRegisterValue
  else if n = 0x6 then some .UnsupportedFeature
  else if n = 0x7 then some .X64InterruptWindow
  else if n = 0x8 then some .X64Halt
  else if n = 0x9 then some .X64ApicEoi
  else if n = 0xA then some .SynicSintDeliverable
  else if n = 0x1000 then some .X64MsrAccess
  else if n = 0x1001 then some .X64Cpuid
  else if n = 0x1002 then some .Exception
  else if n = 0x1003 then some .X64Rdtsc
  else if n = 0x1004 then some .X64ApicSmiTrap
  else if n = 0x1005 then some .Hypercall
  else if n = 0x1006 then some .X64ApicInitSipiTrap
  else if n = 0x1007 then some .X64ApicWriteTrap
  else if n = 0x2001 then some .Canceled
  else none

/-- `SegmentRegister` (`src/processor.rs`); `attributes` is the
`X64SegmentRegisterAttributes` bitflags value. -/
structure SegmentRegister where
  base : Nat
  limit : Nat
  selector : Nat
  attributes : Nat
  deriving DecidableEq, Repr

/-- `WHV_X64_SEGMENT_REGISTER`. -/
structure WhvX64SegmentRegister where
  Base : Nat
  Limit : Nat
  Selector : Nat
  Attributes : Nat
  deriving DecidableEq, Repr

def SegmentRegister.fromWhv (value : WhvX64SegmentRegister) : SegmentRegister :=
  { base := value.Base, limit := value.Limit, selector := value.Selector
    attributes := value.Attributes }

/-- `WHV_MEMORY_ACCESS_CONTEXT`. -/
structure WhvMemoryAccessContext where
  InstructionByteCount : Nat
  InstructionBytes : List Nat
  AccessInfo : Nat
  Gpa : Nat
  Gva : Nat
  deriving DecidableEq, Repr

structure MemoryAccessContext where
  instruction_byte_count : Nat
  instruction_bytes : List Nat
  access_info : Nat
  gpa : Nat
  gva : Nat
  deriving DecidableEq, Repr

def MemoryAccessContext.fromWhv (value : WhvMemoryAccessContext) : MemoryAccessContext :=
  { instruction_byte_count := value.InstructionByteCount
    instruction_bytes := value.InstructionBytes
    access_info := value.AccessInfo, gpa := value.Gpa, gva := value.Gva }

/-- `WHV_X64_IO_PORT_ACCESS_CONTEXT`. -/
structure WhvX64IoPortAccessContext where
  InstructionByteCount : Nat
  InstructionBytes : List Nat
  AccessInfo : Nat
  PortNumber : Nat
  Rax : Nat
  Rcx : Nat
  Rsi : Nat
  Rdi : Nat
  Ds : WhvX64SegmentRegister
  Es : WhvX64SegmentRegister
  deriving DecidableEq, Repr

structure IoPortAccessContext where
  instruction_byte_count : Nat
  instruction_bytes : List Nat
  access_info : Nat
  port_number : Nat
  rax : Nat
  rcx : Nat
  rsi : Nat
  rdi : Nat
  ds : SegmentRegister
  es : SegmentRegister
  deriving DecidableEq, Repr

def IoPortAccessContext.fromWhv (value : WhvX64IoPortAccessContext) : IoPortAccessContext :=
  { instruction_byte_count := value.InstructionByteCount
    instruction_bytes := value.InstructionBytes
    access_info := value.AccessInfo, port_number := value.PortNumber
    rax := value.Rax, rcx := value.Rcx, rsi := value.Rsi, rdi := value.Rdi
    ds := SegmentRegister.fromWhv value.Ds, es := SegmentRegister.fromWhv value.Es }

/-- `WHV_X64_MSR_ACCESS_CONTEXT`. -/
structure WhvX64MsrAccessContext where
  AccessInfo : Nat
  MsrNumber : Nat
  Rax : Nat
  Rdx : Nat
  deriving DecidableEq, Repr

structure MsrAccessContext where
  access_info : Nat
  msr_number : Nat
  rax : Nat
  rdx : Nat
  deriving DecidableEq, Repr

def MsrAccessContext.fromWhv (value : WhvX64MsrAccessContext) : MsrAccessContext :=
  { access_info := value.AccessInfo, msr_number := value.MsrNumber
    rax := value.Rax, rdx := value.Rdx }

/-- `WHV_X64_CPUID_ACCESS_CONTEXT`. -/
structure WhvX64CpuidAccessContext where
  Rax : Nat
  Rcx : Nat
  Rdx : Nat
  Rbx : Nat
  DefaultResultRax : Nat
  DefaultResultRcx : Nat
  DefaultResultRdx : Nat
  DefaultResultRbx : Nat
  deriving DecidableEq, Repr

structure CpuidAccessContext where
  rax : Nat
  rcx : Nat
  rdx : Nat
  rbx : Nat
  default_result_rax : Nat
  default_result_rcx : Nat
  default_result_rdx : Nat
  default_result_rbx : Nat
  deriving DecidableEq, Repr

def CpuidAccessContext.fromWhv (value : WhvX64CpuidAccessContext) : CpuidAccessContext :=
  { rax := value.Rax, rcx := value.Rcx, rdx := value.Rdx, rbx := value.Rbx
    default_result_rax := value.DefaultResultRax
    default_result_rcx := value.DefaultResultRcx
    default_result_rdx := value.DefaultResultRdx
    default_result_rbx := value.DefaultResultRbx }

/-- `WHV_VP_EXCEPTION_CONTEXT`. -/
structure WhvVpExceptionContext where
  InstructionByteCount : Nat
  InstructionBytes : List Nat
  ExceptionInfo : Nat
  ExceptionType : Nat
  ErrorCode : Nat
  ExceptionParameter : Nat
  deriving DecidableEq, Repr

structure VpExceptionContext where
  instruction_byte_count : Nat
  instruction_bytes : List Nat
  exception_info : Nat
  exception_type : Nat
  error_code : Nat
  exception_param : Nat
  deriving DecidableEq, Repr

def VpExceptionContext.fromWhv (value : WhvVpExceptionContext) : VpExceptionContext :=
  { instruction_byte_count := value.InstructionByteCount
    instruction_bytes := value.InstructionBytes
    exception_info := value.ExceptionInfo, exception_type := value.ExceptionType
    error_code := value.ErrorCode, exception_param := value.ExceptionParameter }

inductive UnsupportedFeatureCode
  | Intercept
  | TaskSwitchTss
  deriving DecidableEq, Repr

/-- `From<WHV_X64_UNSUPPORTED_FEATURE_CODE>`; `none` models the
`unreachable!()` panic. -/
def UnsupportedFeatureCode.from_raw : Nat → Option UnsupportedFeatureCode
  | 1 => some .Intercept
  | 2 => some .TaskSwitchTss
  | _ => none

/-- `WHV_X64_UNSUPPORTED_FEATURE_CONTEXT`. -/
structure WhvX64UnsupportedFeatureContext where
  FeatureCode : Nat
  FeatureParameter : Nat
  deriving DecidableEq, Repr

structure UnsupportedFeatureContext where
  feature_code : UnsupportedFeatureCode
  feature_param : Nat
  deriving DecidableEq, Repr

def UnsupportedFeatureContext.fromWhv (value : WhvX64UnsupportedFeatureContext) :
    Option UnsupportedFeatureContext :=
  (UnsupportedFeatureCode.from_raw value.FeatureCode).map
    (fun c => { feature_code := c, feature_param := value.FeatureParameter })

inductive VpCancelReason
  | User
  deriving DecidableEq, Repr

/-- `From<WHV_RUN_VP_CANCEL_REASON>`; `none` models the `unreachable!()`
panic. -/
def VpCancelReason.from_raw : Nat → Option VpCancelReason
  | 0 => some .User
  | _ => none

/-- `WHV_RUN_VP_CANCELED_CONTEXT`. -/
structure WhvRunVpCanceledContext where
  CancelReason : Nat
  deriving DecidableEq, Repr

structure VpCanceledContext where
  cancel_reason : VpCancelReason
  deriving DecidableEq, Repr

def VpCanceledContext.fromWhv (value : WhvRunVpCanceledContext) :
    Option VpCanceledContext :=
  (VpCancelReason.from_raw value.CancelReason).map (fun c => { cancel_reason := c })

/-- `WHV_X64_APIC_EOI_CONTEXT`. -/
structure WhvX64ApicEoiContext where
  InterruptVector : Nat
  deriving DecidableEq, Repr

structure ApicEoiContext where
  interrupt_vec : Nat
  deriving DecidableEq, Repr

def ApicEoiContext.fromWhv (value : WhvX64ApicEoiContext) : ApicEoiContext :=
  { interrupt_vec := value.InterruptVector }

/-- `WHV_X64_RDTSC_CONTEXT`. -/
structure WhvX64RdtscContext where
  TscAux : Nat
  VirtualOffset : Nat
  Tsc : Nat
  ReferenceTime : Nat
  RdtscInfo : Nat
  deriving DecidableEq, Repr

structure RdtscContext where
  tsc_aux : Nat
  virtual_offset : Nat
  tsc : Nat
  reference_time : Nat
  rdtsc_info : Nat
  deriving DecidableEq, Repr

def RdtscContext.fromWhv (value : WhvX64RdtscContext) : RdtscContext :=
  { tsc_aux := value.TscAux, virtual_offset := value.VirtualOffset
    tsc := value.Tsc, reference_time := value.ReferenceTime
    rdtsc_info := value.RdtscInfo }

/-- `WHV_X64_APIC_SMI_CONTEXT`. -/
structure WhvX64ApicSmiContext where
  ApicIcr : Nat
  deriving DecidableEq, Repr

structure ApicSmiContext where
  apic_icr : Nat
  deriving DecidableEq, Repr

def ApicSmiContext.fromWhv (value : WhvX64ApicSmiContext) : ApicSmiContext :=
  { apic_icr := value.ApicIcr }

/-- `WHV_HYPERCALL_CONTEXT`; `XmmRegisters` is the
`WHV_HYPERCALL_CONTEXT_MAX_XMM_REGISTERS`-element array, each entry a
128-bit value. -/
structure WhvHypercallContext where
  Rax : Nat
  Rbx : Nat
  Rcx : Nat
  Rdx : Nat
  R8 : Nat
  Rsi : Nat
  Rdi : Nat
  XmmRegisters : List Nat
  deriving DecidableEq, Repr

structure HypercallContext where
  rax : Nat
  rbx : Nat
  rcx : Nat
  rdx : Nat
  r8 : Nat
  rsi : Nat
  rdi : Nat
  xmm_registers : List Nat
  deriving DecidableEq, Repr

def HypercallContext.fromWhv (value : WhvHypercallContext) : HypercallContext :=
  { rax := value.Rax, rbx := value.Rbx, rcx := value.Rcx, rdx := value.Rdx
    r8 := value.R8, rsi := value.Rsi, rdi := value.Rdi
    xmm_registers := value.XmmRegisters }

inductive PendingInterruptionType
  | Interrupt
  | Nmi
  | Exception
  deriving DecidableEq, Repr

/-- `From<WHV_X64_PENDING_INTERRUPTION_TYPE>`; `none` models the
`unreachable!()` panic (codes 0, 2, 3 are recognised). -/
def PendingInterruptionType.from_raw : Nat → Option PendingInterruptionType
  | 0 => some .Interrupt
  | 2 => some .Nmi
  | 3 => some .Exception
  | _ => none

/-- `WHV_X64_INTERRUPTION_DELIVERABLE_CONTEXT`. -/
structure WhvX64InterruptionDeliverableContext where
  DeliverableType : Nat
  deriving DecidableEq, Repr

structure InterruptionDeliverableContext where
  deliverable_type : PendingInterruptionType
  deriving DecidableEq, Repr

def InterruptionDeliverableContext.fromWhv
    (value : WhvX64InterruptionDeliverableContext) :
    Option InterruptionDeliverableContext :=
  (PendingInterruptionType.from_raw value.DeliverableType).map
    (fun t => { deliverable_type := t })

/-- `WHV_X64_APIC_INIT_SIPI_CONTEXT`. -/
structure WhvX64ApicInitSipiContext where
  ApicIcr : Nat
  deriving DecidableEq, Repr

structure X64ApicInitSipiContext where
  apic_icr : Nat
  deriving DecidableEq, Repr

def X64ApicInitSipiContext.fromWhv (value : WhvX64ApicInitSipiContext) :
    X64ApicInitSipiContext :=
  { apic_icr := value.ApicIcr }

inductive ApicWriteType
  | Ldr
  | Dfr
  | Svr
  | Lint0
  | Lint1
  deriving DecidableEq, Repr

/-- `From<WHV_X64_APIC_WRITE_TYPE>`; `none` models the `unreachable!()`
panic (codes 0xD0, 0xE0, 0xF0, 0x350, 0x360 are recognised). -/
def ApicWriteType.from_raw : Nat → Option ApicWriteType
  | 0xD0 => some .Ldr
  | 0xE0 => some .Dfr
  | 0xF0 => some .Svr
  | 0x350 => some .Lint0
  | 0x360 => some .Lint1
  | _ => none

/-- `WHV_X64_APIC_WRITE_CONTEXT` (field `Type` renamed, as `Type` is a Lean
keyword). -/
structure WhvX64ApicWriteContext where
  WriteType : Nat
  WriteValue : Nat
  deriving DecidableEq, Repr

structure X64ApicWriteContext where
  ty : ApicWriteType
  write_value : Nat
  deriving DecidableEq, Repr

def X64ApicWriteContext.fromWhv (value : WhvX64ApicWriteContext) :
    Option X64ApicWriteContext :=
  (ApicWriteType.from_raw value.WriteType).map
    (fun t => { ty := t, write_value := value.WriteValue })

/-- `WHV_SYNIC_SINT_DELIVERABLE_CONTEXT`. -/
structure WhvSynicSintDeliverableContext where
  DeliverableSints : Nat
  deriving DecidableEq, Repr

structure SynicSintDeliverableContext where
  deliverable_sints : Nat
  deriving DecidableEq, Repr

def SynicSintDeliverableContext.fromWhv (value : WhvSynicSintDeliverableContext) :
    SynicSintDeliverableContext :=
  { deliverable_sints := value.DeliverableSints }

/-- The members of the `WHV_RUN_VP_EXIT_CONTEXT_0` union, as a product (see
the section comment above for why this is faithful here). -/
structure RunVpExitContextUnion where
  MemoryAccess : WhvMemoryAccessContext
  IoPortAccess : WhvX64IoPortAccessContext
  MsrAccess : WhvX64MsrAccessContext
  CpuidAccess : WhvX64CpuidAccessContext
  VpException : WhvVpExceptionContext
  InterruptWindow : WhvX64InterruptionDeliverableContext
  UnsupportedFeature : WhvX64UnsupportedFeatureContext
  CancelReason : WhvRunVpCanceledContext
  ApicEoi : WhvX64ApicEoiContext
  ReadTsc : WhvX64RdtscContext
  ApicSmi : WhvX64ApicSmiContext
  Hypercall : WhvHypercallContext
  ApicInitSipi : WhvX64ApicInitSipiContext
  ApicWrite : WhvX64ApicWriteContext
  SynicSintDeliverable : WhvSynicSintDeliverableContext
  deriving DecidableEq, Repr

/-- An all-zero exit-context union, for concrete evaluation. -/
def RunVpExitContextUnion.zero : RunVpExitContextUnion :=
  { MemoryAccess := ⟨0, [], 0, 0, 0⟩
    IoPortAccess := ⟨0, [], 0, 0, 0, 0, 0, 0, ⟨0, 0, 0, 0⟩, ⟨0, 0, 0, 0⟩⟩
    MsrAccess := ⟨0, 0, 0, 0⟩
    CpuidAccess := ⟨0, 0, 0, 0, 0, 0, 0, 0⟩
    VpException := ⟨0, [], 0, 0, 0, 0⟩
    InterruptWindow := ⟨0⟩
    UnsupportedFeature := ⟨0, 0⟩
    CancelReason := ⟨0⟩
    ApicEoi := ⟨0⟩
    ReadTsc := ⟨0, 0, 0, 0, 0⟩
    ApicSmi := ⟨0⟩
    Hypercall := ⟨0, 0, 0, 0, 0, 0, 0, []⟩
    ApicInitSipi := ⟨0⟩
    ApicWrite := ⟨0, 0⟩
    SynicSintDeliverable := ⟨0⟩ }

/-- `RunExitContextExt` from `src/processor.rs`: the closed set of extension
payload variants. -/
inductive RunExitContextExt
  | MemoryAccess (v : MemoryAccessContext)
  | IoPortAccess (v : IoPortAccessContext)
  | MsrAccess (v : MsrAccessContext)
  | CpuidAccess (v : CpuidAccessContext)
  | VpException (v : VpExceptionContext)
  | InterruptWindow (v : InterruptionDeliverableContext)
  | UnsupportedFeature (v : UnsupportedFeatureContext)
  | CancelReason (v : VpCanceledContext)
  | ApicEoi (v : ApicEoiContext)
  | ReadTsc (v : RdtscContext)
  | ApicSmi (v : ApicSmiContext)
  | Hypercall (v : HypercallContext)
  | ApicInitSipi (v : X64ApicInitSipiContext)
  | ApicWrite (v : X64ApicWriteContext)
  | SynicSintDeliverable (v : SynicSintDeliverableContext)
  deriving DecidableEq, Repr

/-- The variant tags of `RunExitContextExt`, for stating which variant an
extension carries independently of its payload. -/
inductive RunExitContextExtTag
  | MemoryAccess
  | IoPortAccess
  | MsrAccess
  | CpuidAccess
  | VpException
  | InterruptWindow
  | UnsupportedFeature
  | CancelReason
  | ApicEoi
  | ReadTsc
  | ApicSmi
  | Hypercall
  | ApicInitSipi
  | ApicWrite
  | SynicSintDeliverable
  deriving DecidableEq, Repr

def RunExitContextExt.tag : RunExitContextExt → RunExitContextExtTag
  | .MemoryAccess _ => .MemoryAccess
  | .IoPortAccess _ => .IoPortAccess
  | .MsrAccess _ => .MsrAccess
  | .CpuidAccess _ => .CpuidAccess
  | .VpException _ => .VpException
  | .InterruptWindow _ => .InterruptWindow
  | .UnsupportedFeature _ => .UnsupportedFeature
  | .CancelReason _ => .CancelReason
  | .ApicEoi _ => .ApicEoi
  | .ReadTsc _ => .ReadTsc
  | .ApicSmi _ => .ApicSmi
  | .Hypercall _ => .Hypercall
  | .ApicInitSipi _ => .ApicInitSipi
  | .ApicWrite _ => .ApicWrite
  | .SynicSintDeliverable _ => .SynicSintDeliverable

/-- The reason-to-extension designation table as documented by the spec
(sections 3, 4.5 and 8): which extension variant, if any, each exit reason
carries.  Stated independently of the decoder so the decoder can be checked
against it. -/
def reasonExtTable : RunExitReason → Option RunExitContextExtTag
  | .None => none
  | .MemoryAccess => some .MemoryAccess
  | .X64IoPortAccess => some .IoPortAccess
  | .UnrecoverableException => none
  | .InvalidVpRegisterValue => none
  | .UnsupportedFeature => some .UnsupportedFeature
  | .X64InterruptWindow => some .InterruptWindow
  | .X64Halt => none
  | .X64ApicEoi => some .ApicEoi
  | .SynicSintDeliverable => some .SynicSintDeliverable
  | .X64MsrAccess => some .MsrAccess
  | .X64Cpuid => some .CpuidAccess
  | .Exception => some .VpException
  | .X64Rdtsc => some .ReadTsc
  | .X64ApicSmiTrap => some .ApicSmi
  | .Hypercall => some .Hypercall
  | .X64ApicInitSipiTrap => some .ApicInitSipi
  | .X64ApicWriteTrap => some .ApicWrite
  | .Canceled => some .CancelReason

/-- `RunExitContextExt::from_union` from `src/processor.rs`: select the
union interpretation solely from the exit reason.  The outer `Option` models
the panics of the nested enum decoders (`UnsupportedFeatureCode`,
`PendingInterruptionType`, `ApicWriteType`, `VpCancelReason`); the inner
`Option` is the source's own `Option<RunExitContextExt>`. -/
def RunExitContextExt.from_union (exit_reason : RunExitReason)
    (context_ext : RunVpExitContextUnion) : Option (Option RunExitContextExt) :=
  match exit_reason with
  | .None => some none
  | .MemoryAccess =>
    some (some (.MemoryAccess (MemoryAccessContext.fromWhv context_ext.MemoryAccess)))
  | .X64IoPortAccess =>
    some (some (.IoPortAccess (IoPortAccessContext.fromWhv context_ext.IoPortAccess)))
  | .UnrecoverableException => some none
  | .InvalidVpRegisterValue => some none
  | .UnsupportedFeature =>
    (UnsupportedFeatureContext.fromWhv context_ext.UnsupportedFeature).map
      (fun c => some (.UnsupportedFeature c))
  | .X64InterruptWindow =>
    (InterruptionDeliverableContext.fromWhv context_ext.InterruptWindow).map
      (fun c => some (.InterruptWindow c))
  | .X64Halt => some none
  | .X64ApicEoi =>
    some (some (.ApicEoi (ApicEoiContext.fromWhv context_ext.ApicEoi)))
  | .SynicSintDeliverable =>
    some (some (.SynicSintDeliverable
      (SynicSintDeliverableContext.fromWhv context_ext.SynicSintDeliverable)))
  | .X64MsrAccess =>
    some (some (.MsrAccess (MsrAccessContext.fromWhv context_ext.MsrAccess)))
  | .X64Cpuid =>
    some (some (.CpuidAccess (CpuidAccessContext.fromWhv context_ext.CpuidAccess)))
  | .Exception =>
    some (some (.VpException (VpExceptionContext.fromWhv context_ext.VpException)))
  | .X64Rdtsc =>
    some (some (.ReadTsc (RdtscContext.fromWhv context_ext.ReadTsc)))
  | .X64ApicSmiTrap =>
    some (some (.ApicSmi (ApicSmiContext.fromWhv context_ext.ApicSmi)))
  | .Hypercall =>
    some (some (.Hypercall (HypercallContext.fromWhv context_ext.Hypercall)))
  | .X64ApicInitSipiTrap =>
    some (some (.ApicInitSipi (X64ApicInitSipiContext.fromWhv context_ext.ApicInitSipi)))
  | .X64ApicWriteTrap =>
    (X64ApicWriteContext.fromWhv context_ext.ApicWrite).map
      (fun c => some (.ApicWrite c))
  | .Canceled =>
    (VpCanceledContext.fromWhv context_ext.CancelReason).map
      (fun c => some (.CancelReason c))

/-- `ExitContext` from `src/processor.rs` (the architectural context:
execution state bits, the instruction-length/cr8 bitfield byte, code
segment, rip, rflags). -/
structure ExitContext where
  execution_state : Nat
  bitfield : Nat
  cs : SegmentRegister
  rip : Nat
  rflags : Nat
  deriving DecidableEq, Repr

/-- `WHV_VP_EXIT_CONTEXT`. -/
structure WhvVpExitContext where
  ExecutionState : Nat
  bitfield : Nat
  Cs : WhvX64SegmentRegister
  Rip : Nat
  Rflags : Nat
  deriving DecidableEq, Repr

def ExitContext.fromWhv (value : WhvVpExitContext) : ExitContext :=
  { execution_state := value.ExecutionState, bitfield := value.bitfield
    cs := SegmentRegister.fromWhv value.Cs, rip := value.Rip
    rflags := value.Rflags }

/-- `WHV_RUN_VP_EXIT_CONTEXT`: the reported discriminant, the architectural
context, and the extension union. -/
structure WhvRunVpExitContext where
  ExitReason : Nat
  VpContext : WhvVpExitContext
  Anonymous : RunVpExitContextUnion
  deriving DecidableEq, Repr

/-- `RunExitContext` from `src/processor.rs`. -/
structure RunExitContext where
  exit_reason : RunExitReason
  context : ExitContext
  ext : Option RunExitContextExt
  deriving DecidableEq, Repr

/-- `From<WHV_RUN_VP_EXIT_CONTEXT> for RunExitContext`: decode the exit
reason (panicking on an unrecognised discriminant), then the extension via
`RunExitContextExt::from_union`; `none` models either panic. -/
def RunExitContext.fromWhv (value : WhvRunVpExitContext) : Option RunExitContext :=
  match RunExitReason.from_raw value.ExitReason with
  | none => none
  | some exit_reason =>
    match RunExitContextExt.from_union exit_reason value.Anonymous with
    | none => none
    | some ext =>
      some { exit_reason, context := ExitContext.fromWhv value.VpContext, ext }

/-! Typed register values (`src/processor.rs`, `src/fields.rs`,
`src/flags.rs`) and the get/set register operations.  The
`WHV_REGISTER_VALUE` union is modelled as a product of its members: decoding
reads the single member selected by `Register::ty`, encoding writes a single
member into a fresh union, and the code never reads back a member it wrote,
so no cross-member aliasing is observable.  The `src/fields.rs` bitfield
wrappers carry their raw bits unchanged in both directions and are modelled
as the underlying `Nat` bits. -/

/-- `WHV_X64_FP_REGISTER` (mantissa plus the packed
exponent/sign bitfield word). -/
structure WhvX64FpRegister where
  Mantissa : Nat
  bitfield : Nat
  deriving DecidableEq, Repr

/-- `FpRegister` from `src/fields.rs`. -/
structure FpRegister where
  mantissa : Nat
  bitfield : Nat
  deriving DecidableEq, Repr

def FpRegister.fromWhv (value : WhvX64FpRegister) : FpRegister :=
  { mantissa := value.Mantissa, bitfield := value.bitfield }

def FpRegister.toWhv (value : FpRegister) : WhvX64FpRegister :=
  { Mantissa := value.mantissa, bitfield := value.bitfield }

/-- `WHV_X64_FP_CONTROL_STATUS_REGISTER`. -/
structure WhvX64FpControlStatusRegister where
  FpControl : Nat
  FpStatus : Nat
  FpTag : Nat
  LastFpOp : Nat
  LastFpRip : Nat
  deriving DecidableEq, Repr

/-- `X64FpControlStatusRegister` from `src/processor.rs`. -/
structure X64FpControlStatusRegister where
  control : Nat
  status : Nat
  tag : Nat
  last_op : Nat
  last_rip : Nat
  deriving DecidableEq, Repr

def X64FpControlStatusRegister.fromWhv (value : WhvX64FpControlStatusRegister) :
    X64FpControlStatusRegister :=
  { control := value.FpControl, status := value.FpStatus, tag := value.FpTag
    last_op := value.LastFpOp, last_rip := value.LastFpRip }

def X64FpControlStatusRegister.toWhv (value : X64FpControlStatusRegister) :
    WhvX64FpControlStatusRegister :=
  { FpControl := value.control, FpStatus := value.status, FpTag := value.tag
    LastFpOp := value.last_op, LastFpRip := value.last_rip }

/-- `WHV_X64_XMM_CONTROL_STATUS_REGISTER`. -/
structure WhvX64XmmControlStatusRegister where
  LastFpRdp : Nat
  XmmStatusControl : Nat
  XmmStatusControlMask : Nat
  deriving DecidableEq, Repr

/-- `X64XmmControlStatusRegister` from `src/processor.rs`. -/
structure X64XmmControlStatusRegister where
  last_rdp : Nat
  status_control : Nat
  status_control_mask : Nat
  deriving DecidableEq, Repr

def X64XmmControlStatusRegister.fromWhv (value : WhvX64XmmControlStatusRegister) :
    X64XmmControlStatusRegister :=
  { last_rdp := value.LastFpRdp, status_control := value.XmmStatusControl
    status_control_mask := value.XmmStatusControlMask }

def X64XmmControlStatusRegister.toWhv (value : X64XmmControlStatusRegister) :
    WhvX64XmmControlStatusRegister :=
  { LastFpRdp := value.last_rdp, XmmStatusControl := value.status_control
    XmmStatusControlMask := value.status_control_mask }

def SegmentRegister.toWhv (value : SegmentRegister) : WhvX64SegmentRegister :=
  { Base := value.base, Limit := value.limit, Selector := value.selector
    Attributes := value.attributes }

/-- `WHV_X64_TABLE_REGISTER`. -/
structure WhvX64TableRegister where
  Pad : List Nat
  Limit : Nat
  Base : Nat
  deriving DecidableEq, Repr

/-- `TableRegister` from `src/processor.rs`. -/
structure TableRegister where
  pad : List Nat
  limit : Nat
  base : Nat
  deriving DecidableEq, Repr

def TableRegister.fromWhv (value : WhvX64TableRegister) : TableRegister :=
  { pad := value.Pad, limit := value.Limit, base := value.Base }

def TableRegister.toWhv (value : TableRegister) : WhvX64TableRegister :=
  { Pad := value.pad, Limit := value.limit, Base := value.base }

/-- `PendingInterruptionRegister` from `src/fields.rs`: the raw `AsUINT64`
bits of `WHV_X64_PENDING_INTERRUPTION_REGISTER`. -/
structure PendingInterruptionRegister where
  bitfield : Nat
  deriving DecidableEq, Repr

/-- `DeliverabilityNotificationsRegister` from `src/fields.rs`: the raw
`AsUINT64` bits. -/
structure DeliverabilityNotificationsRegister where
  bitfield : Nat
  deriving DecidableEq, Repr

/-- `WHV_X64_PENDING_EXCEPTION_EVENT`. -/
structure WhvX64PendingExceptionEvent where
  bitfield : Nat
  ErrorCode : Nat
  ExceptionParameter : Nat
  deriving DecidableEq, Repr

/-- `PendingExceptionEvent` from `src/fields.rs`. -/
structure PendingExceptionEvent where
  bitfield : Nat
  error_code : Nat
  exception_param : Nat
  deriving DecidableEq, Repr

def PendingExceptionEvent.fromWhv (value : WhvX64PendingExceptionEvent) :
    PendingExceptionEvent :=
  { bitfield := value.bitfield, error_code := value.ErrorCode
    exception_param := value.ExceptionParameter }

def PendingExceptionEvent.toWhv (value : PendingExceptionEvent) :
    WhvX64PendingExceptionEvent :=
  { bitfield := value.bitfield, ErrorCode := value.error_code
    ExceptionParameter := value.exception_param }

/-- `WHV_X64_PENDING_EXT_INT_EVENT`. -/
structure WhvX64PendingExtIntEvent where
  bitfield : Nat
  deriving DecidableEq, Repr

/-- `PendingExtIntEvent` from `src/fields.rs`. -/
structure PendingExtIntEvent where
  bitfield : Nat
  deriving DecidableEq, Repr

def PendingExtIntEvent.fromWhv (value : WhvX64PendingExtIntEvent) :
    PendingExtIntEvent :=
  { bitfield := value.bitfield }

def PendingExtIntEvent.toWhv (value : PendingExtIntEvent) :
    WhvX64PendingExtIntEvent :=
  { bitfield := value.bitfield }

/-- The members of the `WHV_REGISTER_VALUE` union, as a product (see section
comment).  `InterruptState`, `PendingInterruption` and
`DeliverabilityNotifications` are their raw `AsUINT64` bits. -/
structure WhvRegisterValue where
  Reg128 : Nat
  Reg64 : Nat
  Reg32 : Nat
  Reg16 : Nat
  Reg8 : Nat
  Fp : WhvX64FpRegister
  FpControlStatus : WhvX64FpControlStatusRegister
  XmmControlStatus : WhvX64XmmControlStatusRegister
  Segment : WhvX64SegmentRegister
  Table : WhvX64TableRegister
  InterruptState : Nat
  PendingInterruption : Nat
  DeliverabilityNotifications : Nat
  ExceptionEvent : WhvX64PendingExceptionEvent
  ExtIntEvent : WhvX64PendingExtIntEvent
  deriving DecidableEq, Repr

/-- An all-zero register value union (`Default::default()` of
`WHV_REGISTER_VALUE`). -/
def WhvRegisterValue.zero : WhvRegisterValue :=
  { Reg128 := 0, Reg64 := 0, Reg32 := 0, Reg16 := 0, Reg8 := 0
    Fp := ⟨0, 0⟩, FpControlStatus := ⟨0, 0, 0, 0, 0⟩
    XmmControlStatus := ⟨0, 0, 0⟩, Segment := ⟨0, 0, 0, 0⟩
    Table := ⟨[], 0, 0⟩, InterruptState := 0, PendingInterruption := 0
    DeliverabilityNotifications := 0, ExceptionEvent := ⟨0, 0, 0⟩
    ExtIntEvent := ⟨0⟩ }

/-- `RegisterVal` from `src/processor.rs`: the closed set of typed register
values, mirroring `RegisterType` one-to-one. -/
inductive RegisterVal
  | Reg128 (v : Nat)
  | Reg64 (v : Nat)
  | Reg32 (v : Nat)
  | Reg16 (v : Nat)
  | Reg8 (v : Nat)
  | Fp (v : FpRegister)
  | FpControlStatus (v : X64FpControlStatusRegister)
  | XmmControlStatus (v : X64XmmControlStatusRegister)
  | Segment (v : SegmentRegister)
  | Table (v : TableRegister)
  | InterruptState (v : Nat)
  | PendingInterruption (v : PendingInterruptionRegister)
  | DeliverabilityNotifications (v : DeliverabilityNotificationsRegister)
  | ExceptionEvent (v : PendingExceptionEvent)
  | ExtIntEvent (v : PendingExtIntEvent)
  deriving DecidableEq, Repr

/-- `RegisterVal::from_union` from `src/processor.rs`: decode the raw union
under the interpretation selected by the supplied `RegisterType` — the
variant is chosen solely by the type, never by the payload. -/
def RegisterVal.from_union (ty : RegisterType) (raw_val : WhvRegisterValue) :
    RegisterVal :=
  match ty with
  | .Reg128 => .Reg128 raw_val.Reg128
  | .Reg64 => .Reg64 raw_val.Reg64
  | .Reg32 => .Reg32 raw_val.Reg32
  | .Reg16 => .Reg16 raw_val.Reg16
  | .Reg8 => .Reg8 raw_val.Reg8
  | .Fp => .Fp (FpRegister.fromWhv raw_val.Fp)
  | .FpControlStatus =>
    .FpControlStatus (X64FpControlStatusRegister.fromWhv raw_val.FpControlStatus)
  | .XmmControlStatus =>
    .XmmControlStatus (X64XmmControlStatusRegister.fromWhv raw_val.XmmControlStatus)
  | .Segment => .Segment (SegmentRegister.fromWhv raw_val.Segment)
  | .Table => .Table (TableRegister.fromWhv raw_val.Table)
  | .InterruptState => .InterruptState raw_val.InterruptState
  | .PendingInterruption =>
    .PendingInterruption ⟨raw_val.PendingInterruption⟩
  | .DeliverabilityNotifications =>
    .DeliverabilityNotifications ⟨raw_val.DeliverabilityNotifications⟩
  | .ExceptionEvent => .ExceptionEvent (PendingExceptionEvent.fromWhv raw_val.ExceptionEvent)
  | .ExtIntEvent => .ExtIntEvent (PendingExtIntEvent.fromWhv raw_val.ExtIntEvent)

/-- The `RegisterType` that a `RegisterVal` variant mirrors (the one-to-one
variant correspondence). -/
def RegisterVal.toType : RegisterVal → RegisterType
  | .Reg128 _ => .Reg128
  | .Reg64 _ => .Reg64
  | .Reg32 _ => .Reg32
  | .Reg16 _ => .Reg16
  | .Reg8 _ => .Reg8
  | .Fp _ => .Fp
  | .FpControlStatus _ => .FpControlStatus
  | .XmmControlStatus _ => .XmmControlStatus
  | .Segment _ => .Segment
  | .Table _ => .Table
  | .InterruptState _ => .InterruptState
  | .PendingInterruption _ => .PendingInterruption
  | .DeliverabilityNotifications _ => .DeliverabilityNotifications
  | .ExceptionEvent _ => .ExceptionEvent
  | .ExtIntEvent _ => .ExtIntEvent

/-- `From<RegisterVal> for WHV_REGISTER_VALUE`: construct a fresh union with
exactly the member for this variant written. -/
def RegisterVal.toWhv : RegisterVal → WhvRegisterValue
  | .Reg128 v => { WhvRegisterValue.zero with Reg128 := v }
  | .Reg64 v => { WhvRegisterValue.zero with Reg64 := v }
  | .Reg32 v => { WhvRegisterValue.zero with Reg32 := v }
  | .Reg16 v => { WhvRegisterValue.zero with Reg16 := v }
  | .Reg8 v => { WhvRegisterValue.zero with Reg8 := v }
  | .Fp v => { WhvRegisterValue.zero with Fp := v.toWhv }
  | .FpControlStatus v => { WhvRegisterValue.zero with FpControlStatus := v.toWhv }
  | .XmmControlStatus v => { WhvRegisterValue.zero with XmmControlStatus := v.toWhv }
  | .Segment v => { WhvRegisterValue.zero with Segment := v.toWhv }
  | .Table v => { WhvRegisterValue.zero with Table := v.toWhv }
  | .InterruptState v => { WhvRegisterValue.zero with InterruptState := v }
  | .PendingInterruption v =>
    { WhvRegisterValue.zero with PendingInterruption := v.bitfield }
  | .DeliverabilityNotifications v =>
    { WhvRegisterValue.zero with DeliverabilityNotifications := v.bitfield }
  | .ExceptionEvent v => { WhvRegisterValue.zero with ExceptionEvent := v.toWhv }
  | .ExtIntEvent v => { WhvRegisterValue.zero with ExtIntEvent := v.toWhv }

/-- The decode loop of `VirtualProcessor::get_registers`: zip the requested
registers with the raw values the native call filled in and decode each as
`RegisterVal::from_union(r.ty(), v)`.  `none` models the panic of `r.ty()`
on an unclassified register. -/
def decodePairs : List (Register × WhvRegisterValue) →
    Option (List (Register × RegisterVal))
  | [] => some []
  | (r, v) :: rest =>
    match Register.ty r with
    | none => none
    | some t => (decodePairs rest).map
        (fun out => (r, RegisterVal.from_union t v) :: out)

/-- `VirtualProcessor::get_registers`, parameterised by the native call: the
error it reports (if any) for a request, and the buffer contents it writes
(indexed; the source allocates a value buffer of exactly the request's
length).  The request length must fit a `u32` (`try_into`), one native call
is issued for the whole batch, and each value is decoded by
`RegisterVal::from_union(r.ty(), v)`.  `none` models a panic of `r.ty()`. -/
def VirtualProcessor.get_registers (nativeErr : List Register → Option Nat)
    (nativeVals : Nat → WhvRegisterValue) (registers : List Register) :
    Option (Except Error (List (Register × RegisterVal))) :=
  if registers.length < 4294967296 then
    match nativeErr registers with
    | some e => some (.error (.Windows e))
    | none =>
      match decodePairs (registers.zip
          ((List.range registers.length).map nativeVals)) with
      | none => none
      | some out => some (.ok out)
  else some (.error .TryFromIntError)

/-- `VirtualProcessor::get_register`: literally
`Ok(self.get_registers(&[register])?[0].1)` — a one-element bulk get, the
`?` propagating its error and `[0]` indexing the single result (`none`
models an out-of-bounds indexing panic). -/
def VirtualProcessor.get_register (nativeErr : List Register → Option Nat)
    (nativeVals : Nat → WhvRegisterValue) (register : Register) :
    Option (Except Error RegisterVal) :=
  match VirtualProcessor.get_registers nativeErr nativeVals [register] with
  | none => none
  | some (.error e) => some (.error e)
  | some (.ok out) => (out.get? 0).map (fun p => .ok p.2)

/-- `VirtualProcessor::set_registers`, parameterised by the native call's
outcome on the encoded batch: the names and the encoded
`WHV_REGISTER_VALUE`s are unzipped from the pairs, the length must fit a
`u32`, and one native call is issued for the whole batch. -/
def VirtualProcessor.set_registers
    (nativeSet : List Register → List WhvRegisterValue → Option Nat)
    (register_vals : List (Register × RegisterVal)) : Except Error Unit :=
  if register_vals.length < 4294967296 then
    match nativeSet (register_vals.map Prod.fst)
        (register_vals.map (fun p => RegisterVal.toWhv p.2)) with
    | some e => .error (.Windows e)
    | none => .ok ()
  else .error .TryFromIntError

/-- `VirtualProcessor::set_register`: literally
`self.set_registers(&[(register, value)])`. -/
def VirtualProcessor.set_register
    (nativeSet : List Register → List WhvRegisterValue → Option Nat)
    (register : Register) (value : RegisterVal) : Except Error Unit :=
  VirtualProcessor.set_registers nativeSet [(register, value)]

theorem setLE_apply_lt (n : Nat) :
    ∀ (b : Bytes) (off val i : Nat), i < off → setLE b off val n i = b i := by
  induction n with
  | zero => intro b off val i _; rfl
  | succ n ih =>
    intro b off val i h
    show setLE _ (off + 1) _ n i = b i
    rw [ih _ (off + 1) _ i (Nat.lt_succ_of_lt h)]
    simp [Nat.ne_of_lt h]

theorem setLE_apply_ge (n : Nat) :
    ∀ (b : Bytes) (off val i : Nat), off + n ≤ i → setLE b off val n i = b i := by
  induction n with
  | zero => intro b off val i _; rfl
  | succ n ih =>
    intro b off val i h
    show setLE _ (off + 1) _ n i = b i
    rw [ih _ (off + 1) _ i (by omega)]
    have : i ≠ off := by omega
    simp [this]

theorem readLE_congr (n : Nat) :
    ∀ (b₁ b₂ : Bytes) (off : Nat),
      (∀ i, i < n → b₁ (off + i) = b₂ (off + i)) →
      readLE b₁ off n = readLE b₂ off n := by
  induction n with
  | zero => intro b₁ b₂ off _; rfl
  | succ n ih =>
    intro b₁ b₂ off h
    show b₁ off + 256 * readLE b₁ (off + 1) n
        = b₂ off + 256 * readLE b₂ (off + 1) n
    rw [ih b₁ b₂ (off + 1) (fun i hi => by
          have := h (1 + i) (by omega)
          simpa [Nat.add_assoc] using this)]
    have := h 0 (Nat.succ_pos n)
    simp only [Nat.add_zero] at this
    rw [this]

/-- Reading a range entirely below a write is unaffected by it. -/
theorem readLE_setLE_of_left (b : Bytes) (off₁ n₁ off₂ val n₂ : Nat)
    (h : off₁ + n₁ ≤ off₂) :
    readLE (setLE b off₂ val n₂) off₁ n₁ = readLE b off₁ n₁ :=
  readLE_congr n₁ _ b off₁ (fun i hi => setLE_apply_lt n₂ b off₂ val _ (by omega))

/-- Reading a range entirely above a write is unaffected by it. -/
theorem readLE_setLE_of_right (b : Bytes) (off₁ n₁ off₂ val n₂ : Nat)
    (h : off₂ + n₂ ≤ off₁) :
    readLE (setLE b off₂ val n₂) off₁ n₁ = readLE b off₁ n₁ :=
  readLE_congr n₁ _ b off₁ (fun i hi => setLE_apply_ge n₂ b off₂ val _ (by omega))

/-- Reading back exactly the bytes just written recovers the value modulo the
width of the write. -/
theorem readLE_setLE (n : Nat) :
    ∀ (b : Bytes) (off val : Nat),
      readLE (setLE b off val n) off n = val % 256 ^ n := by
  induction n with
  | zero => intro b off val; simp [readLE, Nat.mod_one]
  | succ n ih =>
    intro b off val
    show readLE (setLE _ (off + 1) (val / 256) n) off (n + 1) = _
    have hbyte : setLE (fun i => if i = off then val % 256 else b i)
        (off + 1) (val / 256) n off = val % 256 := by
      rw [setLE_apply_lt n _ (off + 1) _ off (Nat.lt_succ_self off)]
      simp
    show setLE _ (off + 1) (val / 256) n off
        + 256 * readLE (setLE _ (off + 1) (val / 256) n) (off + 1) n = _
    rw [hbyte, ih _ (off + 1) (val / 256)]
    rw [Nat.pow_succ, Nat.mul_comm (256 ^ n) 256, Nat.mod_mul]

theorem readLE_setLE_of_lt (n b off val) (h : val < 256 ^ n) :
    readLE (setLE b off val n) off n = val := by
  rw [readLE_setLE, Nat.mod_eq_of_lt h]

/-- C4: for every well-formed `PartitionProperty` `p`, encoding it to the
native wire form (discriminant `p.code` plus raw union payload `p.toUnion`)
and then decoding that pair with `PartitionProperty::from_union` reconstructs
a value equal to `p`: decode and encode are inverses for every supported
discriminant. -/
theorem PartitionProperty.from_union_toUnion (p : PartitionProperty) (h : p.WF) :
    PartitionProperty.from_union p.code p.toUnion = some p := by
  cases p <;>
    first
      | (rename_i v; cases v <;> decide)
      | simp_all [PartitionProperty.WF, PartitionProperty.code,
          PartitionProperty.from_union, PartitionProperty.toUnion,
          readLE_setLE_of_left, readLE_setLE_of_right, readLE_setLE_of_lt]

/-- C4 witness: the round trip at the concrete edge payload
`ExceptionExitBitmap (2 ^ 64 - 1)` (maximum bit pattern, exercising the
aliased `ExtendedVmExits` read in the decoder). -/
theorem PartitionProperty.from_union_toUnion_witness :
    PartitionProperty.from_union
      (PartitionProperty.ExceptionExitBitmap 18446744073709551615).code
      (PartitionProperty.ExceptionExitBitmap 18446744073709551615).toUnion
      = some (PartitionProperty.ExceptionExitBitmap 18446744073709551615) :=
  PartitionProperty.from_union_toUnion
    (PartitionProperty.ExceptionExitBitmap 18446744073709551615)
    (by norm_num [PartitionProperty.WF])

/-- C8: for every `PartitionPropertyCode` `c` and every raw payload, a
successfully decoded `PartitionProperty::from_union(c, raw)` reports the same
discriminant back through `PartitionProperty::code`. -/
theorem PartitionProperty.from_union_code (c : PartitionPropertyCode)
    (raw : Bytes) (p : PartitionProperty)
    (h : PartitionProperty.from_union c raw = some p) :
    p.code = c := by
  cases c <;> simp only [PartitionProperty.from_union] at h <;>
    first
      | (obtain ⟨a, -, rfl⟩ := Option.map_eq_some'.mp h; rfl)
      | (injection h with h; subst h; rfl)

/-- C8 witness: decoding the all-zero payload under the `ProcessorCount`
discriminant yields a property whose own discriminant is `ProcessorCount`. -/
theorem PartitionProperty.from_union_code_witness :
    (PartitionProperty.ProcessorCount 0).code = PartitionPropertyCode.ProcessorCount :=
  PartitionProperty.from_union_code PartitionPropertyCode.ProcessorCount zeroBytes
    (PartitionProperty.ProcessorCount 0) (by decide)

/-- C2: `Register::ty` is not total — for every SynIC register
(`Sint0`..`Sint15`, `Scontrol`, `Sversion`, `Siefp`, `Simp`, `Eom`,
`VpRuntime`, `Hypercall`, `GuestOsId`, `VpAssistPage`, `ReferenceTsc`,
`ReferenceTscSequence`) and every interrupt/event-state register
(`PendingInterruption`, `InterruptState`, `PendingEvent`,
`DeliverabilityNotifications`, `InternalActivityState`,
`PendingDebugException`) the source hits a `todo!()` and panics (modelled by
`none`), while ordinary registers such as `Rax` do classify. -/
theorem Register.ty_sint_panics :
    Register.ty Register.Sint0 = none
    ∧ ([Register.Sint0, Register.Sint1, Register.Sint2, Register.Sint3,
        Register.Sint4, Register.Sint5, Register.Sint6, Register.Sint7,
        Register.Sint8, Register.Sint9, Register.Sint10, Register.Sint11,
        Register.Sint12, Register.Sint13, Register.Sint14, Register.Sint15,
        Register.Scontrol, Register.Sversion, Register.Siefp, Register.Simp,
        Register.Eom, Register.VpRuntime, Register.Hypercall,
        Register.GuestOsId, Register.VpAssistPage, Register.ReferenceTsc,
        Register.ReferenceTscSequence, Register.PendingInterruption,
        Register.InterruptState, Register.PendingEvent,
        Register.DeliverabilityNotifications, Register.InternalActivityState,
        Register.PendingDebugException].all
          fun r => (Register.ty r).isNone) = true
    ∧ Register.ty Register.Rax = some RegisterType.Reg64 := by
  decide

/-- C3: `Partition::set_property` never reaches its availability dispatch:
`PartitionProperty::availibility` is a `todo!()` placeholder for every
variant, so the call panics on every property instead of returning the
dedicated `IncompatiblePropertyAvailibility` error for `BeforeSetup`
properties. -/
theorem Partition.set_property_panics (prop : PartitionProperty) :
    PartitionProperty.availibility prop = none
    ∧ Partition.set_property prop = none := by
  refine ⟨?_, ?_⟩ <;> cases prop <;> rfl

/-- C5: `Partition::create_virtual_processor(index)`, with the committed
`ProcessorCount` property reading back as `count`, fails with
`Error::InvalidVpIndex(index, count)` before any native vCPU-creation call
whenever `index >= count` (the trace contains only the property read), and
proceeds to create the vCPU for every `index < count`. -/
theorem Partition.create_virtual_processor_bounds (countRaw : Bytes) (index : Nat) :
    (readLE countRaw 0 4 ≤ index →
      Partition.create_virtual_processor countRaw index
        = some ([.GetPartitionProperty .ProcessorCount],
            .error (.InvalidVpIndex index (readLE countRaw 0 4))))
    ∧ (index < readLE countRaw 0 4 →
      Partition.create_virtual_processor countRaw index
        = some ([.GetPartitionProperty .ProcessorCount,
                 .CreateVirtualProcessor index], .ok index)) := by
  constructor
  · intro h
    simp [Partition.create_virtual_processor, PartitionProperty.from_union,
      if_pos h]
  · intro h
    simp [Partition.create_virtual_processor, PartitionProperty.from_union,
      if_neg (Nat.not_le.mpr h)]

/-- C5 witness: with a committed processor count of 2, index 2 is rejected
with `InvalidVpIndex (2, 2)` before the native create call, and index 1 is
created. -/
theorem Partition.create_virtual_processor_bounds_witness :
    Partition.create_virtual_processor (setLE zeroBytes 0 2 4) 2
      = some ([.GetPartitionProperty .ProcessorCount],
          .error (.InvalidVpIndex 2 2))
    ∧ Partition.create_virtual_processor (setLE zeroBytes 0 2 4) 1
      = some ([.GetPartitionProperty .ProcessorCount,
               .CreateVirtualProcessor 1], .ok 1) :=
  ⟨(Partition.create_virtual_processor_bounds (setLE zeroBytes 0 2 4) 2).1
      (by decide),
   (Partition.create_virtual_processor_bounds (setLE zeroBytes 0 2 4) 1).2
      (by decide)⟩

/-- C9: if the native mapping call inside
`Partition::map_memory_region(descriptor)` fails, the error is surfaced to
the caller and the partition is returned exactly unchanged: the descriptor is
not added to `memory_regions`, so ownership of its backing allocation is not
transferred and it is still released by the rejected descriptor's own drop. -/
theorem Partition.map_memory_region_error (e : Nat) (part : Partition)
    (memory_region : MemoryRegion) :
    Partition.map_memory_region (.error e) part memory_region
      = (.error (.Windows e), part) :=
  rfl

/-- C6: decoding an exit-reason discriminant.  Every variant decodes from its
assigned code; a discriminant outside the closed enumerated set is a fatal
decode (the `unreachable!()` panic, `none`) — never a silent coercion to a
default variant — and a successful decode always returns exactly the variant
assigned to that code. -/
theorem RunExitReason.decode_spec :
    (∀ r : RunExitReason, RunExitReason.from_raw r.toRaw = some r)
    ∧ (∀ n : Nat, (∀ r : RunExitReason, RunExitReason.toRaw r ≠ n) →
        RunExitReason.from_raw n = none)
    ∧ (∀ (n : Nat) (r : RunExitReason), RunExitReason.from_raw n = some r →
        RunExitReason.toRaw r = n) := by
  have part1 : ∀ r : RunExitReason, RunExitReason.from_raw r.toRaw = some r := by
    intro r; cases r <;> rfl
  have part2 : ∀ n : Nat, (∀ r : RunExitReason, RunExitReason.toRaw r ≠ n) →
      RunExitReason.from_raw n = none := by
    intro n h
    have h0 : (0 : Nat) ≠ n := h .None
    have h1 : (1 : Nat) ≠ n := h .MemoryAccess
    have h2 : (2 : Nat) ≠ n := h .X64IoPortAccess
    have h4 : (4 : Nat) ≠ n := h .UnrecoverableException
    have h5 : (5 : Nat) ≠ n := h .InvalidVpRegisterValue
    have h6 : (6 : Nat) ≠ n := h .UnsupportedFeature
    have h7 : (7 : Nat) ≠ n := h .X64InterruptWindow
    have h8 : (8 : Nat) ≠ n := h .X64Halt
    have h9 : (9 : Nat) ≠ n := h .X64ApicEoi
    have hA : (10 : Nat) ≠ n := h .SynicSintDeliverable
    have hB : (4096 : Nat) ≠ n := h .X64MsrAccess
    have hC : (4097 : Nat) ≠ n := h .X64Cpuid
    have hD : (4098 : Nat) ≠ n := h .Exception
    have hE : (4099 : Nat) ≠ n := h .X64Rdtsc
    have hF : (4100 : Nat) ≠ n := h .X64ApicSmiTrap
    have hG : (4101 : Nat) ≠ n := h .Hypercall
    have hH : (4102 : Nat) ≠ n := h .X64ApicInitSipiTrap
    have hI : (4103 : Nat) ≠ n := h .X64ApicWriteTrap
    have hJ : (8193 : Nat) ≠ n := h .Canceled
    unfold RunExitReason.from_raw
    rw [if_neg (Ne.symm h0), if_neg (Ne.symm h1), if_neg (Ne.symm h2),
      if_neg (Ne.symm h4), if_neg (Ne.symm h5), if_neg (Ne.symm h6),
      if_neg (Ne.symm h7), if_neg (Ne.symm h8), if_neg (Ne.symm h9),
      if_neg (Ne.symm hA), if_neg (Ne.symm hB), if_neg (Ne.symm hC),
      if_neg (Ne.symm hD), if_neg (Ne.symm hE), if_neg (Ne.symm hF),
      if_neg (Ne.symm hG), if_neg (Ne.symm hH), if_neg (Ne.symm hI),
      if_neg (Ne.symm hJ)]
  refine ⟨part1, part2, ?_⟩
  intro n r h
  by_cases hex : ∃ r₀ : RunExitReason, RunExitReason.toRaw r₀ = n
  · obtain ⟨r₀, rfl⟩ := hex
    rw [part1 r₀] at h
    obtain rfl := Option.some.inj h
    rfl
  · rw [part2 n (fun r₀ hr₀ => hex ⟨r₀, hr₀⟩)] at h
    exact Option.noConfusion h

/-- C6 witness: code 3 — a gap inside the table's numeric range — is a fatal
decode, and the `Canceled` variant is assigned exactly code `0x2001`. -/
theorem RunExitReason.decode_spec_witness :
    RunExitReason.from_raw 3 = none
    ∧ RunExitReason.toRaw RunExitReason.Canceled = 0x2001 :=
  ⟨RunExitReason.decode_spec.2.1 3 (by decide),
   RunExitReason.decode_spec.2.2 0x2001 RunExitReason.Canceled (by decide)⟩

/-- C1 counterexample: the `RunExitReason` enumeration produced by the decoder
has 19 values, not 16 as the claim states. -/
theorem RunExitReason.card_ne_16 :
    Fintype.card RunExitReason = 19 ∧ Fintype.card RunExitReason ≠ 16 := by
  constructor <;> decide

/-- C1 (amended to the actual 19 `RunExitReason` values): for every exit
reason and native extension payload that decode successfully, the resulting
extension is `some` exactly when the reason-to-extension table designates a
payload, its variant is exactly the designated one, and the table designates
no payload for precisely the four reasons `None`, `X64Halt`,
`UnrecoverableException` and `InvalidVpRegisterValue`; the same holds for the
extension carried by a fully decoded `RunExitContext`. -/
theorem RunExitContextExt.from_union_table :
    (∀ (exit_reason : RunExitReason) (context_ext : RunVpExitContextUnion)
        (ext : Option RunExitContextExt),
      RunExitContextExt.from_union exit_reason context_ext = some ext →
        ext.map RunExitContextExt.tag = reasonExtTable exit_reason
        ∧ ext.isSome = (reasonExtTable exit_reason).isSome)
    ∧ (∀ reason : RunExitReason, reasonExtTable reason = none ↔
        (reason = .None ∨ reason = .X64Halt ∨ reason = .UnrecoverableException
          ∨ reason = .InvalidVpRegisterValue))
    ∧ (∀ (value : WhvRunVpExitContext) (ctx : RunExitContext),
        RunExitContext.fromWhv value = some ctx →
          ctx.ext.map RunExitContextExt.tag = reasonExtTable ctx.exit_reason) := by
  have main : ∀ (exit_reason : RunExitReason)
      (context_ext : RunVpExitContextUnion) (ext : Option RunExitContextExt),
      RunExitContextExt.from_union exit_reason context_ext = some ext →
        ext.map RunExitContextExt.tag = reasonExtTable exit_reason
        ∧ ext.isSome = (reasonExtTable exit_reason).isSome := by
    intro exit_reason context_ext ext h
    cases exit_reason <;>
      simp only [RunExitContextExt.from_union, Option.map_eq_some'] at h <;>
      obtain ⟨c, -, rfl⟩ := h <;> exact ⟨rfl, rfl⟩
  refine ⟨main, by decide, ?_⟩
  intro value ctx h
  unfold RunExitContext.fromWhv at h
  cases hr : RunExitReason.from_raw value.ExitReason with
  | none => simp only [hr] at h; exact Option.noConfusion h
  | some exit_reason =>
    simp only [hr] at h
    cases he : RunExitContextExt.from_union exit_reason value.Anonymous with
    | none => simp only [he] at h; exact Option.noConfusion h
    | some ext =>
      simp only [he] at h
      obtain rfl := Option.some.inj h
      exact (main exit_reason value.Anonymous ext he).1

/-- C1 witness: decoding the `Canceled` reason against the all-zero payload
yields the `CancelReason` extension, matching the table's designation. -/
theorem RunExitContextExt.from_union_table_witness :
    (some (RunExitContextExt.CancelReason ⟨VpCancelReason.User⟩)).map
        RunExitContextExt.tag = reasonExtTable RunExitReason.Canceled
    ∧ (some (RunExitContextExt.CancelReason ⟨VpCancelReason.User⟩)).isSome
        = (reasonExtTable RunExitReason.Canceled).isSome :=
  RunExitContextExt.from_union_table.1 RunExitReason.Canceled
    RunVpExitContextUnion.zero (some (.CancelReason ⟨.User⟩)) (by decide)

/-- C7: the decoded variant is selected solely by the register's
classification.  First conjunct: `RegisterVal::from_union(ty, raw)` returns
the variant mirroring `ty` for every raw payload — the payload bytes never
influence the variant.  Second conjunct: every pair produced by the decode
loop of a successful `get_registers` call is decoded exactly as
`RegisterVal::from_union(r.ty(), raw)` for its register `r`. -/
theorem RegisterVal.from_union_type_fidelity :
    (∀ (ty : RegisterType) (raw_val : WhvRegisterValue),
      (RegisterVal.from_union ty raw_val).toType = ty)
    ∧ (∀ (pairs : List (Register × WhvRegisterValue))
        (out : List (Register × RegisterVal)),
      decodePairs pairs = some out →
        ∀ q ∈ out, ∃ p ∈ pairs, ∃ t, Register.ty p.1 = some t
          ∧ q = (p.1, RegisterVal.from_union t p.2)) := by
  constructor
  · intro ty raw_val; cases ty <;> rfl
  · intro pairs
    induction pairs with
    | nil =>
      intro out h q hq
      simp only [decodePairs] at h
      obtain rfl := Option.some.inj h
      exact absurd hq (List.not_mem_nil q)
    | cons hd tl ih =>
      intro out h q hq
      obtain ⟨r, v⟩ := hd
      simp only [decodePairs] at h
      cases hty : Register.ty r with
      | none => simp only [hty] at h; exact Option.noConfusion h
      | some t =>
        simp only [hty, Option.map_eq_some'] at h
        obtain ⟨out', hout', rfl⟩ := h
        rw [List.mem_cons] at hq
        rcases hq with rfl | hq
        · exact ⟨(r, v), List.mem_cons_self _ _, t, hty, rfl⟩
        · obtain ⟨p, hp, t', h1, h2⟩ := ih out' hout' q hq
          exact ⟨p, List.mem_cons_of_mem _ hp, t', h1, h2⟩

/-- C7 witness: decoding a one-register batch for `Rax` against the all-zero
payload yields the pair decoded via `Rax`'s classification `Reg64`. -/
theorem RegisterVal.from_union_type_fidelity_witness :
    ∃ p ∈ [(Register.Rax, WhvRegisterValue.zero)], ∃ t,
      Register.ty p.1 = some t
      ∧ (Register.Rax, RegisterVal.Reg64 0) = (p.1, RegisterVal.from_union t p.2) :=
  RegisterVal.from_union_type_fidelity.2 [(Register.Rax, WhvRegisterValue.zero)]
    [(Register.Rax, RegisterVal.Reg64 0)] rfl
    (Register.Rax, RegisterVal.Reg64 0) (by simp)

/-- C10: the single-register operations are one-element bulk operations.
`set_register(r, v)` is definitionally `set_registers([(r, v)])`; and
`get_register(r)` propagates exactly the panic or error of
`get_registers([r])`, whose successful result is a single pair `(r, v)`
whose value component `get_register` returns. -/
theorem VirtualProcessor.single_register_ops :
    (∀ (nativeSet : List Register → List WhvRegisterValue → Option Nat)
        (r : Register) (v : RegisterVal),
      VirtualProcessor.set_register nativeSet r v
        = VirtualProcessor.set_registers nativeSet [(r, v)])
    ∧ (∀ (nativeErr : List Register → Option Nat)
        (nativeVals : Nat → WhvRegisterValue) (r : Register),
      VirtualProcessor.get_registers nativeErr nativeVals [r] = none →
        VirtualProcessor.get_register nativeErr nativeVals r = none)
    ∧ (∀ (nativeErr : List Register → Option Nat)
        (nativeVals : Nat → WhvRegisterValue) (r : Register) (e : Error),
      VirtualProcessor.get_registers nativeErr nativeVals [r] = some (.error e) →
        VirtualProcessor.get_register nativeErr nativeVals r = some (.error e))
    ∧ (∀ (nativeErr : List Register → Option Nat)
        (nativeVals : Nat → WhvRegisterValue) (r : Register)
        (out : List (Register × RegisterVal)),
      VirtualProcessor.get_registers nativeErr nativeVals [r] = some (.ok out) →
        ∃ v, out = [(r, v)]
          ∧ VirtualProcessor.get_register nativeErr nativeVals r
              = some (.ok v)) := by
  refine ⟨fun _ _ _ => rfl, ?_, ?_, ?_⟩
  · intro ne nv r h
    simp only [VirtualProcessor.get_register, h]
  · intro ne nv r e h
    simp only [VirtualProcessor.get_register, h]
  · intro ne nv r out h
    have h0 := h
    unfold VirtualProcessor.get_registers at h
    rw [if_pos (by norm_num : ([r] : List Register).length < 4294967296)] at h
    cases hne : ne [r] with
    | some e =>
      simp only [hne] at h
      exact Except.noConfusion (Option.some.inj h)
    | none =>
      simp only [hne, show List.range 1 = [0] from rfl, List.map_cons,
        List.map_nil, List.zip_cons_cons, List.zip_nil_left, decodePairs] at h
      cases hty : Register.ty r with
      | none => simp only [hty] at h; exact Option.noConfusion h
      | some t =>
        simp only [hty, Option.map_some'] at h
        obtain rfl : [(r, RegisterVal.from_union t (nv 0))] = out :=
          Except.ok.inj (Option.some.inj h)
        refine ⟨RegisterVal.from_union t (nv 0), rfl, ?_⟩
        simp only [VirtualProcessor.get_register, h0]
        simp

/-- C10 witness: with a native layer that reports no error and fills the
buffer with zeroed values, the one-element batch for `Rax` returns
`[(Rax, Reg64 0)]` and `get_register` returns exactly that decoded value. -/
theorem VirtualProcessor.single_register_ops_witness :
    ∃ v, ([(Register.Rax, RegisterVal.Reg64 0)]
            : List (Register × RegisterVal)) = [(Register.Rax, v)]
      ∧ VirtualProcessor.get_register (fun _ => none)
          (fun _ => WhvRegisterValue.zero) Register.Rax = some (.ok v) :=
  VirtualProcessor.single_register_ops.2.2.2 (fun _ => none)
    (fun _ => WhvRegisterValue.zero) Register.Rax
    [(Register.Rax, RegisterVal.Reg64 0)] rfl

end WHV
